import Mathlib

/-!
A shallow embedding of `ip2proxy.go` (package ip2proxy-go).

The package is a read-only lookup engine over a binary database of IP ranges.
This file embeds the package state (the globals of `ip2proxy.go`), the
positioned readers, `checkip`, `Open`, `Close`, `query` and `GetAll`, and proves
properties of them.

Conventions of the embedding

* `uint8`/`uint32` values are natural numbers; every arithmetic operation that
  can wrap in Go is followed by an explicit reduction modulo `2^8` or `2^32`.
* `*big.Int` values are integers (`Int`).
* The backing file is a list of bytes.  `(*os.File).ReadAt` into a zeroed
  buffer leaves zero in every position it could not read (past the end of the
  file, negative offset, nil or closed handle); the source only prints the
  error and carries on with the buffer, and so does the embedding.
* A Go `string` is its list of bytes.
* `net.ParseIP` belongs to the Go standard library; the embedding starts from
  its result, a `net.IP` byte slice or nil.  For a dotted quad the result is
  the 16-byte IPv4-in-IPv6 form built by `net.IPv4`.
* The `for low <= high` loop of `query` is run with fuel: `none` means that
  the fuel ran out before the loop returned.
-/

namespace IP2Proxy

/-! ## Bytes, strings, the store -/

abbrev Byte := Fin 256

/-- Go strings are byte sequences. -/
abbrev GoString := List Byte

/-- Contents of the database file. -/
abbrev Store := List Byte

/-- The value of a `net.IP`: a byte slice (length 4 or 16 when well formed). -/
abbrev NetIP := List Byte

/-- Truncation to `uint8`. -/
def u8 (n : Nat) : Nat := n % 256

/-- Truncation to `uint32`. -/
def u32 (n : Nat) : Nat := n % 4294967296

/-- The byte that a positioned read sees at 0-based offset `off`: zero when the
handle is nil or closed (`none`) or the offset is past the end of the file. -/
def byteAt (f : Option Store) (off : Nat) : Byte :=
  match f with
  | none => 0
  | some st => st.getD off 0

/-- Buffer contents after `f.ReadAt(data, off)` with `data := make([]byte, n)`. -/
def ReadAt (f : Option Store) (n : Nat) (off : Int) : List Byte :=
  if off < 0 then List.replicate n 0
  else (List.range n).map (fun k => byteAt f (off.toNat + k))

/-- Little-endian value of a byte buffer (`binary.Read` with `binary.LittleEndian`). -/
def littleEndian (data : List Byte) : Nat :=
  data.foldr (fun b acc => b.val + 256 * acc) 0

/-- Big-endian magnitude of a byte buffer (`big.Int.SetBytes`). -/
def SetBytes (data : List Byte) : Int :=
  Int.ofNat (data.foldl (fun acc b => acc * 256 + b.val) 0)

/-- Source: `readuint8(pos int64) uint8`. -/
def readuint8 (f : Option Store) (pos : Int) : Nat :=
  ((ReadAt f 1 (pos - 1)).getD 0 0).val

/-- Source: `readuint32(pos uint32) uint32`. -/
def readuint32 (f : Option Store) (pos : Nat) : Nat :=
  littleEndian (ReadAt f 4 ((pos : Int) - 1))

/-- Source: `readuint128(pos uint32) *big.Int`: the buffer is reversed in place
and then read as a big-endian magnitude. -/
def readuint128 (f : Option Store) (pos : Nat) : Int :=
  SetBytes (ReadAt f 16 ((pos : Int) - 1)).reverse

/-- Source: `readstr(pos uint32) string`: a length byte at offset `pos`, then
that many bytes from offset `pos + 1`. -/
def readstr (f : Option Store) (pos : Nat) : GoString :=
  let lenbyte := ReadAt f 1 (pos : Int)
  let strlen := (lenbyte.getD 0 0).val
  let data := ReadAt f strlen ((pos : Int) + 1)
  data.take strlen

/-! ## Package state -/

structure ip2proxymeta where
  databasetype : Nat
  databasecolumn : Nat
  databaseday : Nat
  databasemonth : Nat
  databaseyear : Nat
  ipv4databasecount : Nat
  ipv4databaseaddr : Nat
  ipv6databasecount : Nat
  ipv6databaseaddr : Nat
  ipv4indexbaseaddr : Nat
  ipv6indexbaseaddr : Nat
  ipv4columnsize : Nat
  ipv6columnsize : Nat
  deriving DecidableEq, Repr

structure IP2Proxyrecord where
  Country_short : GoString
  Country_long : GoString
  Region : GoString
  City : GoString
  Isp : GoString
  Proxy_type : GoString
  Domain : GoString
  Usage_type : GoString
  Asn : GoString
  As : GoString
  Last_seen : GoString
  Is_proxy : Int
  IPFrom : Int
  IPTo : Int
  deriving DecidableEq, Repr

/-- The zero value of `IP2Proxyrecord` (`var x IP2Proxyrecord`). -/
def zeroRecord : IP2Proxyrecord :=
  ⟨[], [], [], [], [], [], [], [], [], [], [], 0, 0, 0⟩

/-- The package-level variables of `ip2proxy.go`.  `f = none` stands for a nil
or closed file handle. -/
structure State where
  f : Option Store
  meta : ip2proxymeta
  max_ipv6_range : Int
  from_6to4 : Int
  to_6to4 : Int
  from_teredo : Int
  to_teredo : Int
  metaok : Bool
  country_position_offset : Nat
  region_position_offset : Nat
  city_position_offset : Nat
  isp_position_offset : Nat
  proxytype_position_offset : Nat
  domain_position_offset : Nat
  usagetype_position_offset : Nat
  asn_position_offset : Nat
  as_position_offset : Nat
  lastseen_position_offset : Nat
  country_enabled : Bool
  region_enabled : Bool
  city_enabled : Bool
  isp_enabled : Bool
  proxytype_enabled : Bool
  domain_enabled : Bool
  usagetype_enabled : Bool
  asn_enabled : Bool
  as_enabled : Bool
  lastseen_enabled : Bool
  deriving DecidableEq, Repr

/-- The state of the package when the program starts. -/
def initState : State :=
  { f := none
    meta := ⟨0, 0, 0, 0, 0, 0, 0, 0, 0, 0, 0, 0, 0⟩
    max_ipv6_range := 0, from_6to4 := 0, to_6to4 := 0, from_teredo := 0, to_teredo := 0
    metaok := false
    country_position_offset := 0, region_position_offset := 0, city_position_offset := 0
    isp_position_offset := 0, proxytype_position_offset := 0, domain_position_offset := 0
    usagetype_position_offset := 0, asn_position_offset := 0, as_position_offset := 0
    lastseen_position_offset := 0
    country_enabled := false, region_enabled := false, city_enabled := false
    isp_enabled := false, proxytype_enabled := false, domain_enabled := false
    usagetype_enabled := false, asn_enabled := false, as_enabled := false
    lastseen_enabled := false }

/-! ## Constants -/

def country_position : List Nat := [0, 2, 3, 3, 3, 3, 3, 3, 3]
def region_position : List Nat := [0, 0, 0, 4, 4, 4, 4, 4, 4]
def city_position : List Nat := [0, 0, 0, 5, 5, 5, 5, 5, 5]
def isp_position : List Nat := [0, 0, 0, 0, 6, 6, 6, 6, 6]
def proxytype_position : List Nat := [0, 0, 2, 2, 2, 2, 2, 2, 2]
def domain_position : List Nat := [0, 0, 0, 0, 0, 7, 7, 7, 7]
def usagetype_position : List Nat := [0, 0, 0, 0, 0, 0, 8, 8, 8]
def asn_position : List Nat := [0, 0, 0, 0, 0, 0, 0, 9, 9]
def as_position : List Nat := [0, 0, 0, 0, 0, 0, 0, 10, 10]
def lastseen_position : List Nat := [0, 0, 0, 0, 0, 0, 0, 0, 11]

def max_ipv4_range : Int := 4294967295
def from_v4mapped : Int := 281470681743360
def to_v4mapped : Int := 281474976710655
def last_32bits : Int := 4294967295

def countryshort : Nat := 0x00001
def countrylong : Nat := 0x00002
def region : Nat := 0x00004
def city : Nat := 0x00008
def isp : Nat := 0x00010
def proxytype : Nat := 0x00020
def isproxy : Nat := 0x00040
def domain : Nat := 0x00080
def usagetype : Nat := 0x00100
def asn : Nat := 0x00200
def as : Nat := 0x00400
def lastseen : Nat := 0x00800

def all : Nat :=
  countryshort ||| countrylong ||| region ||| city ||| isp ||| proxytype ||| isproxy |||
    domain ||| usagetype ||| asn ||| as ||| lastseen

/-- The errors the package returns, and the run-time panic of an array index
out of range. -/
inductive Error where
  | NotSupported      -- `ErrNotSupported`, "NOT SUPPORTED"
  | InvalidIP         -- "INVALID IP ADDRESS"
  | MissingFile       -- "MISSING FILE"
  | IPv6Unsupported   -- "IPV6 ADDRESS MISSING IN IPV4 BIN"
  | OpenFailed        -- the error of `os.Open`
  | CloseFailed       -- the error of `f.Close`
  | IndexOutOfRange   -- run-time panic
  deriving DecidableEq, Repr

/-! ## Operations of `math/big` and `net` used by the package -/

/-- Go: `z.Rsh(x, n)`, an arithmetic shift. -/
def Rsh (x : Int) (n : Nat) : Int := x >>> n

/-- Go: `z.Lsh(x, n)`. -/
def Lsh (x : Int) (n : Nat) : Int := x * 2 ^ n

/-- Go: `z.Not(x)`, the two's-complement bitwise negation `-x - 1`. -/
def Not (x : Int) : Int := Int.lnot x

/-- Go: `z.And(x, y)`, the two's-complement bitwise and. -/
def And (x y : Int) : Int := Int.land x y

/-- Go: `x.Uint64()`: the low 64 bits of the magnitude. -/
def Uint64 (x : Int) : Nat := x.natAbs % 18446744073709551616

/-- Go: `x.Int64()`: the low 64 bits of the magnitude as a two's-complement
`int64`, negated (with wrap-around) when `x` is negative. -/
def Int64 (x : Int) : Int :=
  let u : Int := Int.ofNat (x.natAbs % 18446744073709551616)
  let v : Int := if u < 9223372036854775808 then u else u - 18446744073709551616
  if x < 0 then (if v = -9223372036854775808 then v else -v) else v

/-- Go: `net.IPv4(a, b, c, d)`, the 16-byte form of an IPv4 address; it is what
`net.ParseIP` returns for the dotted quad `a.b.c.d` and for `::ffff:a.b.c.d`. -/
def IPv4 (a b c d : Byte) : NetIP :=
  [0, 0, 0, 0, 0, 0, 0, 0, 0, 0, 0xff, 0xff, a, b, c, d]

/-- Go: `ip.To4()`. -/
def To4 (ip : NetIP) : Option NetIP :=
  if ip.length = 4 then some ip
  else if ip.length = 16 ∧ (ip.take 10).all (fun b => b = 0) = true ∧
      ip.getD 10 0 = 0xff ∧ ip.getD 11 0 = 0xff then some (ip.drop 12)
  else none

/-- Go: `ip.To16()`. -/
def To16 (ip : NetIP) : Option NetIP :=
  if ip.length = 4 then some (IPv4 (ip.getD 0 0) (ip.getD 1 0) (ip.getD 2 0) (ip.getD 3 0))
  else if ip.length = 16 then some ip
  else none

/-! ## `checkip` -/

/-- The classification part of `checkip` (source lines 120-156): the address
family and the IP number.  `ipaddress` is the result of `net.ParseIP(ip)`. -/
def checkip_num (s : State) (ipaddress : Option NetIP) : Nat × Int :=
  match ipaddress with
  | none => (0, 0)
  | some ip =>
    match To4 ip with
    | some v4 => (4, SetBytes v4)
    | none =>
      match To16 ip with
      | none => (0, 0)
      | some v6 =>
        let ipnum := SetBytes v6
        if from_v4mapped ≤ ipnum ∧ ipnum ≤ to_v4mapped then
          (4, ipnum - from_v4mapped)
        else if s.from_6to4 ≤ ipnum ∧ ipnum ≤ s.to_6to4 then
          (4, And (Rsh ipnum 80) last_32bits)
        else if s.from_teredo ≤ ipnum ∧ ipnum ≤ s.to_teredo then
          (4, And (Not ipnum) last_32bits)
        else
          (6, ipnum)

/-- The index part of `checkip` (source lines 157-169). -/
def checkip_index (s : State) (iptype : Nat) (ipnum : Int) : Nat :=
  if iptype = 4 then
    if s.meta.ipv4indexbaseaddr > 0 then
      u32 (Uint64 (Lsh (Rsh ipnum 16) 3 + (s.meta.ipv4indexbaseaddr : Int)))
    else 0
  else if iptype = 6 then
    if s.meta.ipv6indexbaseaddr > 0 then
      u32 (Uint64 (Lsh (Rsh ipnum 112) 3 + (s.meta.ipv6indexbaseaddr : Int)))
    else 0
  else 0

/-- Source: `checkip(ip string) (iptype uint32, ipnum *big.Int, ipindex uint32)`. -/
def checkip (s : State) (ipaddress : Option NetIP) : Nat × Int × Nat :=
  let r := checkip_num s ipaddress
  (r.1, r.2, checkip_index s r.1 r.2)

/-! ## `Open` and `Close` -/

/-- One of the ten blocks `if xxx_position[dbt] != 0 { ... }` of `Open`: the
table lookup (which panics when `dbt` is out of range) and the entry found. -/
def lookup (table : List Nat) (dbt : Nat) : Option Nat := table[dbt]?

/-- The offset stored for a nonzero table entry: `uint32(entry-1) << 2`. -/
def position_offset (entry : Nat) : Nat := u32 (u8 (entry + 256 - 1) <<< 2)

/-- Source lines 287-290 of `Open`: the block of `country_position`. -/
def Open_country (s : State) : Option State :=
  (lookup country_position s.meta.databasetype).map fun e =>
    if e ≠ 0 then
      { s with country_position_offset := position_offset e, country_enabled := true }
    else s

/-- Source lines 291-294 of `Open`: the block of `region_position`. -/
def Open_region (s : State) : Option State :=
  (lookup region_position s.meta.databasetype).map fun e =>
    if e ≠ 0 then
      { s with region_position_offset := position_offset e, region_enabled := true }
    else s

/-- Source lines 295-298 of `Open`: the block of `city_position`. -/
def Open_city (s : State) : Option State :=
  (lookup city_position s.meta.databasetype).map fun e =>
    if e ≠ 0 then
      { s with city_position_offset := position_offset e, city_enabled := true }
    else s

/-- Source lines 299-302 of `Open`: the block of `isp_position`. -/
def Open_isp (s : State) : Option State :=
  (lookup isp_position s.meta.databasetype).map fun e =>
    if e ≠ 0 then
      { s with isp_position_offset := position_offset e, isp_enabled := true }
    else s

/-- Source lines 303-306 of `Open`: the block of `proxytype_position`. -/
def Open_proxytype (s : State) : Option State :=
  (lookup proxytype_position s.meta.databasetype).map fun e =>
    if e ≠ 0 then
      { s with proxytype_position_offset := position_offset e, proxytype_enabled := true }
    else s

/-- Source lines 307-310 of `Open`: the block of `domain_position`. -/
def Open_domain (s : State) : Option State :=
  (lookup domain_position s.meta.databasetype).map fun e =>
    if e ≠ 0 then
      { s with domain_position_offset := position_offset e, domain_enabled := true }
    else s

/-- Source lines 311-314 of `Open`: the block of `usagetype_position`. -/
def Open_usagetype (s : State) : Option State :=
  (lookup usagetype_position s.meta.databasetype).map fun e =>
    if e ≠ 0 then
      { s with usagetype_position_offset := position_offset e, usagetype_enabled := true }
    else s

/-- Source lines 315-318 of `Open`: the block of `asn_position`. -/
def Open_asn (s : State) : Option State :=
  (lookup asn_position s.meta.databasetype).map fun e =>
    if e ≠ 0 then
      { s with asn_position_offset := position_offset e, asn_enabled := true }
    else s

/-- Source lines 319-322 of `Open`: the block of `as_position`. -/
def Open_as (s : State) : Option State :=
  (lookup as_position s.meta.databasetype).map fun e =>
    if e ≠ 0 then
      { s with as_position_offset := position_offset e, as_enabled := true }
    else s

/-- Source lines 323-326 of `Open`: the block of `lastseen_position`. -/
def Open_lastseen (s : State) : Option State :=
  (lookup lastseen_position s.meta.databasetype).map fun e =>
    if e ≠ 0 then
      { s with lastseen_position_offset := position_offset e, lastseen_enabled := true }
    else s

/-- Source lines 284-328 of `Open`: the ten blocks in order, then
`metaok = true`.  `none` is the index-out-of-range panic. -/
def Open_fields (s : State) : Option State :=
  Open_country s >>= Open_region >>= Open_city >>= Open_isp >>= Open_proxytype >>=
    Open_domain >>= Open_usagetype >>= Open_asn >>= Open_as >>= Open_lastseen >>=
    fun s => some { s with metaok := true }

/-- Source lines 258-282 of `Open` once `os.Open` succeeded on a file with
contents `st`: the range constants, the handle and the header. -/
def Open_header (s : State) (st : Store) : State :=
  let f := some st
  let dbtype := readuint8 f 1
  let dbcolumn := readuint8 f 2
  { s with
    max_ipv6_range := 340282366920938463463374607431768211455
    from_6to4 := 42545680458834377588178886921629466624
    to_6to4 := 42550872755692912415807417417958686719
    from_teredo := 42540488161975842760550356425300246528
    to_teredo := 42540488241204005274814694018844196863
    f := f
    meta :=
      { databasetype := dbtype
        databasecolumn := dbcolumn
        databaseyear := readuint8 f 3
        databasemonth := readuint8 f 4
        databaseday := readuint8 f 5
        ipv4databasecount := readuint32 f 6
        ipv4databaseaddr := readuint32 f 10
        ipv6databasecount := readuint32 f 14
        ipv6databaseaddr := readuint32 f 18
        ipv4indexbaseaddr := readuint32 f 22
        ipv6indexbaseaddr := readuint32 f 26
        ipv4columnsize := u8 (dbcolumn <<< 2)
        ipv6columnsize := u8 (16 + u8 (u8 (dbcolumn + 256 - 1) <<< 2)) } }

/-- Source: `Open(dbpath string) error`.  `file` is what `os.Open(dbpath)`
finds: `none` when the file cannot be opened, otherwise its contents.  The
result is the new package state and the error (`none` for a nil error).  When a
table lookup panics no field block has run, since the ten tables have the same
length and the first lookup already fails. -/
def Open (s : State) (file : Option Store) : State × Option Error :=
  match file with
  | none =>
    ({ s with
        max_ipv6_range := 340282366920938463463374607431768211455
        from_6to4 := 42545680458834377588178886921629466624
        to_6to4 := 42550872755692912415807417417958686719
        from_teredo := 42540488161975842760550356425300246528
        to_teredo := 42540488241204005274814694018844196863
        f := none }, some Error.OpenFailed)
  | some st =>
    let s1 := Open_header s st
    match Open_fields s1 with
    | some s2 => (s2, none)
    | none => (s1, some Error.IndexOutOfRange)

/-- Source: `Close() error`.  Closing a nil or already closed handle fails. -/
def Close (s : State) : State × Option Error :=
  ({ initState with
      max_ipv6_range := s.max_ipv6_range
      from_6to4 := s.from_6to4
      to_6to4 := s.to_6to4
      from_teredo := s.from_teredo
      to_teredo := s.to_teredo
      f := none },
   match s.f with
   | none => some Error.CloseFailed
   | some _ => none)

/-! ## `query` -/

/-- The string "-". -/
def str_dash : GoString := [45]

/-- The string "DCH". -/
def str_DCH : GoString := [68, 67, 72]

/-- The string "SES". -/
def str_SES : GoString := [83, 69, 83]

/-- Source lines 464-516 of `query`: the strings decoded from the matched row,
starting from the zero record.  `rowoffset` is the offset of the matched row. -/
def decode_strings (s : State) (iptype mode rowoffset : Nat) : IP2Proxyrecord :=
  let rowoffset := if iptype = 6 then u32 (rowoffset + 12) else rowoffset
  let x := zeroRecord
  let x :=
    if s.proxytype_enabled = true ∧ (mode &&& proxytype ≠ 0 ∨ mode &&& isproxy ≠ 0) then
      { x with Proxy_type :=
          readstr s.f (readuint32 s.f (u32 (rowoffset + s.proxytype_position_offset))) }
    else x
  let countrypos :=
    if s.country_enabled = true ∧
        (mode &&& countryshort ≠ 0 ∨ mode &&& countrylong ≠ 0 ∨ mode &&& isproxy ≠ 0) then
      readuint32 s.f (u32 (rowoffset + s.country_position_offset))
    else 0
  let x :=
    if s.country_enabled = true ∧ (mode &&& countryshort ≠ 0 ∨ mode &&& isproxy ≠ 0) then
      { x with Country_short := readstr s.f countrypos }
    else x
  let x :=
    if s.country_enabled = true ∧ mode &&& countrylong ≠ 0 then
      { x with Country_long := readstr s.f (u32 (countrypos + 3)) }
    else x
  let x :=
    if mode &&& region ≠ 0 ∧ s.region_enabled = true then
      { x with Region := readstr s.f (readuint32 s.f (u32 (rowoffset + s.region_position_offset))) }
    else x
  let x :=
    if mode &&& city ≠ 0 ∧ s.city_enabled = true then
      { x with City := readstr s.f (readuint32 s.f (u32 (rowoffset + s.city_position_offset))) }
    else x
  let x :=
    if mode &&& isp ≠ 0 ∧ s.isp_enabled = true then
      { x with Isp := readstr s.f (readuint32 s.f (u32 (rowoffset + s.isp_position_offset))) }
    else x
  let x :=
    if mode &&& domain ≠ 0 ∧ s.domain_enabled = true then
      { x with Domain := readstr s.f (readuint32 s.f (u32 (rowoffset + s.domain_position_offset))) }
    else x
  let x :=
    if mode &&& usagetype ≠ 0 ∧ s.usagetype_enabled = true then
      { x with Usage_type :=
          readstr s.f (readuint32 s.f (u32 (rowoffset + s.usagetype_position_offset))) }
    else x
  let x :=
    if mode &&& asn ≠ 0 ∧ s.asn_enabled = true then
      { x with Asn := readstr s.f (readuint32 s.f (u32 (rowoffset + s.asn_position_offset))) }
    else x
  let x :=
    if mode &&& as ≠ 0 ∧ s.as_enabled = true then
      { x with As := readstr s.f (readuint32 s.f (u32 (rowoffset + s.as_position_offset))) }
    else x
  let x :=
    if mode &&& lastseen ≠ 0 ∧ s.lastseen_enabled = true then
      { x with Last_seen :=
          readstr s.f (readuint32 s.f (u32 (rowoffset + s.lastseen_position_offset))) }
    else x
  x

/-- Source lines 518-526 of `query`: the value given to `x.Is_proxy`. -/
def classify (x : IP2Proxyrecord) : Int :=
  if x.Country_short = str_dash ∨ x.Proxy_type = str_dash then 0
  else if x.Proxy_type = str_DCH ∨ x.Proxy_type = str_SES then 2
  else 1

/-- Source lines 464-531 of `query`: the record returned for a matched row. -/
def decode (s : State) (iptype mode rowoffset : Nat) (ipfrom ipto : Int) : IP2Proxyrecord :=
  let x := decode_strings s iptype mode rowoffset
  let x := { x with Is_proxy := classify x }
  { x with IPFrom := Int64 ipfrom, IPTo := Int64 ipto }

/-- The boundary value the search reads at position `pos` (source lines 455-461). -/
def readrow (s : State) (iptype pos : Nat) : Int :=
  if iptype = 4 then Int.ofNat (readuint32 s.f pos) else readuint128 s.f pos

/-- Source lines 450-541 of `query`: the loop `for low <= high` and the return
that follows it.  The first numeric argument is the fuel, one unit for each
evaluation of the loop condition; the other two are `low` and `high`. -/
def search (s : State) (iptype : Nat) (ipno : Int) (baseaddr colsize mode : Nat) :
    Nat → Nat → Nat → Option (IP2Proxyrecord × Option Error)
  | 0, _, _ => none
  | fuel + 1, low, high =>
    if low ≤ high then
      let mid := u32 (low + high) >>> 1
      let rowoffset := u32 (baseaddr + u32 (mid * colsize))
      let rowoffset2 := u32 (rowoffset + colsize)
      let ipfrom := readrow s iptype rowoffset
      let ipto := readrow s iptype rowoffset2
      if ipfrom ≤ ipno ∧ ipno < ipto then
        some (decode s iptype mode rowoffset ipfrom ipto, none)
      else if ipno < ipfrom then
        search s iptype ipno baseaddr colsize mode fuel low (u32 (mid + 4294967296 - 1))
      else
        search s iptype ipno baseaddr colsize mode fuel (u32 (mid + 1)) high
    else
      some (zeroRecord, some Error.NotSupported)

/-- Source: `query(ipaddress string, mode uint32) (IP2Proxyrecord, error)`.
`ipaddress` is the result of `net.ParseIP` on the address string; the result is
`none` when the loop has not returned within `fuel` iterations. -/
def query (s : State) (ipaddress : Option NetIP) (mode : Nat) (fuel : Nat) :
    Option (IP2Proxyrecord × Option Error) :=
  if s.metaok = false then some (zeroRecord, some Error.MissingFile)
  else
    let c := checkip s ipaddress
    let iptype := c.1
    let ipno := c.2.1
    let ipindex := c.2.2
    if iptype = 0 then some (zeroRecord, some Error.InvalidIP)
    else if iptype ≠ 4 ∧ s.meta.ipv6databasecount = 0 then
      some (zeroRecord, some Error.IPv6Unsupported)
    else
      let baseaddr := if iptype = 4 then s.meta.ipv4databaseaddr else s.meta.ipv6databaseaddr
      let high := if iptype = 4 then s.meta.ipv4databasecount else s.meta.ipv6databasecount
      let maxip := if iptype = 4 then max_ipv4_range else s.max_ipv6_range
      let colsize := if iptype = 4 then s.meta.ipv4columnsize else s.meta.ipv6columnsize
      let low := if ipindex > 0 then readuint32 s.f ipindex else 0
      let high := if ipindex > 0 then readuint32 s.f (u32 (ipindex + 4)) else high
      let ipno := if maxip ≤ ipno then ipno - 1 else ipno
      search s iptype ipno baseaddr colsize mode fuel low high

/-- Source: `GetAll(ipaddress string) (IP2Proxyrecord, error)`. -/
def GetAll (s : State) (ipaddress : Option NetIP) (fuel : Nat) :
    Option (IP2Proxyrecord × Option Error) :=
  query s ipaddress all fuel

/-- The call `query(ipaddress, mode)` returns `r`. -/
def Returns (s : State) (ipaddress : Option NetIP) (mode : Nat)
    (r : IP2Proxyrecord × Option Error) : Prop :=
  ∃ fuel, query s ipaddress mode fuel = some r

/-- The call `query(ipaddress, mode)` never returns. -/
def Diverges (s : State) (ipaddress : Option NetIP) (mode : Nat) : Prop :=
  ∀ fuel, query s ipaddress mode fuel = none

/-! ## Vocabulary of the statements -/

/-- The part of the state that the field blocks of `Open` leave alone. -/
def Frame (s1 s2 : State) : Prop :=
  s2.f = s1.f ∧ s2.meta = s1.meta ∧ s2.max_ipv6_range = s1.max_ipv6_range ∧
    s2.from_6to4 = s1.from_6to4 ∧ s2.to_6to4 = s1.to_6to4 ∧
    s2.from_teredo = s1.from_teredo ∧ s2.to_teredo = s1.to_teredo

/-- Position of row `k` of a table, as the loop of `query` computes `rowoffset`
from `mid = k`. -/
def rowpos (baseaddr colsize k : Nat) : Nat := u32 (baseaddr + u32 (k * colsize))

/-- The `ip_from` boundary that the loop of `query` reads for row `k`. -/
def rowfrom (s : State) (iptype baseaddr colsize k : Nat) : Int :=
  readrow s iptype (rowpos baseaddr colsize k)

/-- The `ip_from` of row `k` of the IPv4 table. -/
def ipfrom4 (s : State) (k : Nat) : Int :=
  rowfrom s 4 s.meta.ipv4databaseaddr s.meta.ipv4columnsize k

/-- The `ip_from` of row `k` of the IPv6 table. -/
def ipfrom6 (s : State) (k : Nat) : Int :=
  rowfrom s 6 s.meta.ipv6databaseaddr s.meta.ipv6columnsize k

/-- Position of row `k` of the IPv4 table. -/
def rowpos4 (s : State) (k : Nat) : Nat :=
  rowpos s.meta.ipv4databaseaddr s.meta.ipv4columnsize k

/-- Position of row `k` of the IPv6 table. -/
def rowpos6 (s : State) (k : Nat) : Nat :=
  rowpos s.meta.ipv6databaseaddr s.meta.ipv6columnsize k

/-- The 32-bit value of the IPv4 address `a.b.c.d`: `a<<24 | b<<16 | c<<8 | d`. -/
def ipv4_value (a b c d : Byte) : Int :=
  Int.ofNat (a.val * 16777216 + b.val * 65536 + c.val * 256 + d.val)

/-- The record that `query` returns when it matches row `i` of the IPv4 table:
the strings decoded from that row, the classification, and the row's range. -/
def row_record4 (s : State) (mode i : Nat) : IP2Proxyrecord :=
  { decode_strings s 4 mode (rowpos4 s i) with
    Is_proxy := classify (decode_strings s 4 mode (rowpos4 s i))
    IPFrom := ipfrom4 s i
    IPTo := ipfrom4 s (i + 1) }

/-- The value `query` searches for: the IP number, less one when it is the
maximum `maxip` of its family or more (source lines 446-448). -/
def searched (maxip ipno : Int) : Int := if maxip ≤ ipno then ipno - 1 else ipno

/-- The lower bound `query` starts from (source lines 415 and 441-442). -/
def start_low (s : State) (ipindex : Nat) : Nat :=
  if ipindex > 0 then readuint32 s.f ipindex else 0

/-- The upper bound `query` starts from (source lines 427, 435 and 441-443). -/
def start_high (s : State) (ipindex count : Nat) : Nat :=
  if ipindex > 0 then readuint32 s.f (u32 (ipindex + 4)) else count

/-- The address family of the normalized address (`iptype` of `checkip`). -/
def norm_type (s : State) (ip : Option NetIP) : Nat := (checkip s ip).1

/-- The value of the normalized address (`ipnum` of `checkip`). -/
def norm_value (s : State) (ip : Option NetIP) : Int := (checkip s ip).2.1

/-- The index key of the normalized address (`ipindex` of `checkip`). -/
def norm_key (s : State) (ip : Option NetIP) : Nat := (checkip s ip).2.2

/-- The lower bound stored in the index entry at the address's index key. -/
def index_low (s : State) (ip : Option NetIP) : Nat := readuint32 s.f (norm_key s ip)

/-- The upper bound stored in the index entry at the address's index key. -/
def index_high (s : State) (ip : Option NetIP) : Nat :=
  readuint32 s.f (u32 (norm_key s ip + 4))

/-- The 16 octets of the IPv4-mapped IPv6 address `::ffff:a.b.c.d`. -/
def v4mapped (a b c d : Byte) : NetIP :=
  [0, 0, 0, 0, 0, 0, 0, 0, 0, 0, 0xff, 0xff, a, b, c, d]

/-- The 16 octets of the 6to4 address `2002:0102:0304::`. -/
def addr_6to4_example : NetIP := [0x20, 0x02, 1, 2, 3, 4, 0, 0, 0, 0, 0, 0, 0, 0, 0, 0]

/-- The 16 octets of the Teredo address `2001:0:4136:e378:8000:63bf:3fff:fdd2`. -/
def addr_teredo_example : NetIP :=
  [0x20, 0x01, 0, 0, 0x41, 0x36, 0xe3, 0x78, 0x80, 0x00, 0x63, 0xbf, 0x3f, 0xff, 0xfd, 0xd2]

/-- The position the field offsets of a matched row are counted from: the row
position, plus 12 in an IPv6 row (source lines 464-466). -/
def field_base (iptype rowoffset : Nat) : Nat :=
  if iptype = 6 then u32 (rowoffset + 12) else rowoffset

/-- The string a row points to in the column at offset `off`: the 4-byte
pointer at `base + off`, then the length-prefixed string at the pointer. -/
def pointed_string (s : State) (base off : Nat) : GoString :=
  readstr s.f (readuint32 s.f (u32 (base + off)))

/-- The strings of a matched row as the specification words them: a field is
read from the row's pointer if and only if it is enabled and requested by the
mask (bit 0 `country_short`, 1 `country_long`, 2 `region`, 3 `city`, 4 `isp`,
5 `proxy_type`, 6 `is_proxy`, 7 `domain`, 8 `usage_type`, 9 `asn`, 10 `as`,
11 `last_seen`), where `is_proxy` also requests `Proxy_type` and
`Country_short`; every other field is empty.  The long country name is the
string 3 bytes after the short one. -/
def expected_strings (s : State) (mode base : Nat) : IP2Proxyrecord :=
  { Country_short :=
      if s.country_enabled = true ∧ (mode.testBit 0 = true ∨ mode.testBit 6 = true) then
        pointed_string s base s.country_position_offset
      else []
    Country_long :=
      if s.country_enabled = true ∧ mode.testBit 1 = true then
        readstr s.f (u32 (readuint32 s.f (u32 (base + s.country_position_offset)) + 3))
      else []
    Region :=
      if s.region_enabled = true ∧ mode.testBit 2 = true then
        pointed_string s base s.region_position_offset
      else []
    City :=
      if s.city_enabled = true ∧ mode.testBit 3 = true then
        pointed_string s base s.city_position_offset
      else []
    Isp :=
      if s.isp_enabled = true ∧ mode.testBit 4 = true then
        pointed_string s base s.isp_position_offset
      else []
    Proxy_type :=
      if s.proxytype_enabled = true ∧ (mode.testBit 5 = true ∨ mode.testBit 6 = true) then
        pointed_string s base s.proxytype_position_offset
      else []
    Domain :=
      if s.domain_enabled = true ∧ mode.testBit 7 = true then
        pointed_string s base s.domain_position_offset
      else []
    Usage_type :=
      if s.usagetype_enabled = true ∧ mode.testBit 8 = true then
        pointed_string s base s.usagetype_position_offset
      else []
    Asn :=
      if s.asn_enabled = true ∧ mode.testBit 9 = true then
        pointed_string s base s.asn_position_offset
      else []
    As :=
      if s.as_enabled = true ∧ mode.testBit 10 = true then
        pointed_string s base s.as_position_offset
      else []
    Last_seen :=
      if s.lastseen_enabled = true ∧ mode.testBit 11 = true then
        pointed_string s base s.lastseen_position_offset
      else []
    Is_proxy := 0
    IPFrom := 0
    IPTo := 0 }

/-- Two records carry the same eleven strings. -/
def same_strings (r x : IP2Proxyrecord) : Prop :=
  r.Country_short = x.Country_short ∧ r.Country_long = x.Country_long ∧
  r.Region = x.Region ∧ r.City = x.City ∧ r.Isp = x.Isp ∧ r.Proxy_type = x.Proxy_type ∧
  r.Domain = x.Domain ∧ r.Usage_type = x.Usage_type ∧ r.Asn = x.Asn ∧ r.As = x.As ∧
  r.Last_seen = x.Last_seen

/-- The 16 octets of the IPv6 address `2001:db8::1`. -/
def addr_v6_example : NetIP := [0x20, 0x01, 0x0d, 0xb8, 0, 0, 0, 0, 0, 0, 0, 0, 0, 0, 0, 1]

/-- All ten enabled flags are false, as in a fresh process and after `Close`. -/
def flags_clear (s : State) : Prop :=
  s.country_enabled = false ∧
  s.region_enabled = false ∧
  s.city_enabled = false ∧
  s.isp_enabled = false ∧
  s.proxytype_enabled = false ∧
  s.domain_enabled = false ∧
  s.usagetype_enabled = false ∧
  s.asn_enabled = false ∧
  s.as_enabled = false ∧
  s.lastseen_enabled = false

/-- One of the three remapping rules of `checkip` (source lines 139-153) on
the 128-bit value `x`: rule 0 is IPv4-mapped, rule 1 is 6to4, rule 2 is Teredo.
`none` when `x` is outside the range of the rule. -/
def remap_rule (s : State) (k : Nat) (x : Int) : Option (Nat × Int) :=
  if k = 0 then
    if from_v4mapped ≤ x ∧ x ≤ to_v4mapped then some (4, x - from_v4mapped) else none
  else if k = 1 then
    if s.from_6to4 ≤ x ∧ x ≤ s.to_6to4 then some (4, And (Rsh x 80) last_32bits) else none
  else if k = 2 then
    if s.from_teredo ≤ x ∧ x ≤ s.to_teredo then some (4, And (Not x) last_32bits) else none
  else none

/-- The classification of a 128-bit value when the three range tests are made
in the given order; family 6 with the value unchanged when no rule applies. -/
def remap_in_order (s : State) (order : List Nat) (x : Int) : Nat × Int :=
  (order.findSome? (fun k => remap_rule s k x)).getD (6, x)

/-- The six orders in which the three range tests can be made. -/
def test_orders : List (List Nat) :=
  [[0, 1, 2], [0, 2, 1], [1, 0, 2], [1, 2, 0], [2, 0, 1], [2, 1, 0]]

/-- The `n` bytes stored from position `p` (1-based) on: the bytes at 0-based
offsets `p - 1`, ..., `p + n - 2`, with zero past the end of the file. -/
def stored (f : Option Store) (p n : Nat) : List Byte :=
  (List.range n).map (fun k => byteAt f (p - 1 + k))

/-! ## Example stores -/

/-- A small database of schema type 2 (three columns: `ip_from`, proxy type,
country) without index: header (29 bytes), three rows and the closing boundary
row from position 30, then the strings.

| row | ip_from    | proxy type | country      |
|-----|------------|------------|--------------|
| 0   | 0.0.0.0    | "DCH"      | "-" / "-"    |
| 1   | 1.0.0.0    | "PUB"      | "US" / "US"  |
| 2   | 2.0.0.0    | "DCH"      | "JP" / "Japan" |
| end | 255.255.255.255 | | | -/
def px2_store : Store :=
  [2, 3, 21, 6, 1,  3, 0, 0, 0,  30, 0, 0, 0,  0, 0, 0, 0,  0, 0, 0, 0,  0, 0, 0, 0,  0, 0, 0, 0,
   0, 0, 0, 0,  92, 0, 0, 0,  77, 0, 0, 0,
   0, 0, 0, 1,  82, 0, 0, 0,  86, 0, 0, 0,
   0, 0, 0, 2,  92, 0, 0, 0,  96, 0, 0, 0,
   255, 255, 255, 255,  0, 0, 0, 0,  0, 0, 0, 0,
   1, 45, 0, 1, 45,  3, 80, 85, 66,  2, 85, 83, 2, 85, 83,  3, 68, 67, 72,
   2, 74, 80, 5, 74, 97, 112, 97, 110]

/-- The package state after `Open` on `px2_store` in a fresh process. -/
def px2_state : State := (Open initState (some px2_store)).1

/-- A small database of schema type 1 (two columns: `ip_from`, country)
without index whose first row does not start at address 0: header, the row
`[16, 32)` and the closing boundary row from position 30, then the strings
"US" / "US" at offset 45. -/
def px1_store : Store :=
  [1, 2, 21, 6, 1,  1, 0, 0, 0,  30, 0, 0, 0,  0, 0, 0, 0,  0, 0, 0, 0,  0, 0, 0, 0,  0, 0, 0, 0,
   16, 0, 0, 0,  45, 0, 0, 0,
   32, 0, 0, 0,  45, 0, 0, 0,
   2, 85, 83, 2, 85, 83]

/-- The package state after `Open` on `px1_store` in a fresh process. -/
def px1_state : State := (Open initState (some px1_store)).1

/-- A store whose header declares schema type 1, column count 0, one IPv4 row
at position 30 and no index, followed by the four bytes of the number 16. -/
def zero_column_store : Store :=
  [1, 0, 21, 6, 1,  1, 0, 0, 0,  30, 0, 0, 0,  0, 0, 0, 0,  0, 0, 0, 0,  0, 0, 0, 0,  0, 0, 0, 0,
   16, 0, 0, 0]

/-- The package state after `Open` on `zero_column_store` in a fresh process. -/
def zero_column_state : State := (Open initState (some zero_column_store)).1

/-- The table base address `query` selects for the family (lines 426, 434). -/
def fam_base (s : State) (iptype : Nat) : Nat :=
  if iptype = 4 then s.meta.ipv4databaseaddr else s.meta.ipv6databaseaddr

/-- The record count `query` selects for the family (lines 427, 435). -/
def fam_count (s : State) (iptype : Nat) : Nat :=
  if iptype = 4 then s.meta.ipv4databasecount else s.meta.ipv6databasecount

/-- The maximum address `query` selects for the family (lines 428, 436). -/
def fam_maxip (s : State) (iptype : Nat) : Int :=
  if iptype = 4 then max_ipv4_range else s.max_ipv6_range

/-- The row size `query` selects for the family (lines 429, 437). -/
def fam_colsize (s : State) (iptype : Nat) : Nat :=
  if iptype = 4 then s.meta.ipv4columnsize else s.meta.ipv6columnsize

/-- The `ip_from` of row `k` of the table of the family. -/
def fam_from (s : State) (iptype k : Nat) : Int :=
  rowfrom s iptype (fam_base s iptype) (fam_colsize s iptype) k

/-- The same database with both index base addresses set to 0. -/
def without_index (s : State) : State :=
  { s with meta := { s.meta with ipv4indexbaseaddr := 0, ipv6indexbaseaddr := 0 } }

/-- A database of schema type 1 with an IPv4 index at position 30 holding the
single entry `(low, high)`, the strings "US" / "US" at offset 37, and from
position 44 the rows `[0, 100)`, `[100, 200)` and the closing boundary row. -/
def indexed_store (low high : Byte) : Store :=
  [1, 2, 21, 6, 1,  2, 0, 0, 0,  44, 0, 0, 0,  0, 0, 0, 0,  0, 0, 0, 0,  30, 0, 0, 0,  0, 0, 0, 0,
   low, 0, 0, 0,  high, 0, 0, 0,
   2, 85, 83, 2, 85, 83,
   0, 0, 0, 0,  37, 0, 0, 0,
   100, 0, 0, 0,  37, 0, 0, 0,
   200, 0, 0, 0,  37, 0, 0, 0]

/-- The package state after `Open` on `indexed_store low high` in a fresh process. -/
def indexed_state (low high : Byte) : State := (Open initState (some (indexed_store low high))).1

/-- A header-only store whose schema-type byte is 9 (11 columns, no rows). -/
def type9_store : Store :=
  [9, 11, 21, 6, 1,  0, 0, 0, 0,  30, 0, 0, 0,  0, 0, 0, 0,  0, 0, 0, 0,  0, 0, 0, 0,  0, 0, 0, 0]

/-- A header-only store of schema type 1 whose column-count byte is 64. -/
def wide_store : Store :=
  [1, 64, 21, 6, 1,  0, 0, 0, 0,  30, 0, 0, 0,  0, 0, 0, 0,  0, 0, 0, 0,  0, 0, 0, 0,  0, 0, 0, 0]

/-- The package state after `Open` on `px2_store` and then, without `Close`,
`Open` on `px1_store`. -/
def reopened_state : State := (Open px2_state (some px1_store)).1

/-- The 16 bytes `1, 0, ..., 0`. -/
def one_first_store : Store := [1, 0, 0, 0, 0, 0, 0, 0, 0, 0, 0, 0, 0, 0, 0, 0]

/-- A database of schema type 1 like `px1_store` whose header declares the
IPv4 index base address `0xFFFFFFF8`. -/
def wrap_index_store : Store :=
  [1, 2, 21, 6, 1,  1, 0, 0, 0,  30, 0, 0, 0,  0, 0, 0, 0,  0, 0, 0, 0,
   0xF8, 0xFF, 0xFF, 0xFF,  0, 0, 0, 0,
   16, 0, 0, 0,  45, 0, 0, 0,
   32, 0, 0, 0,  45, 0, 0, 0,
   2, 85, 83, 2, 85, 83]

/-- The package state after `Open` on `wrap_index_store` in a fresh process. -/
def wrap_index_state : State := (Open initState (some wrap_index_store)).1

/-- A database of schema type 1 like `px1_store` whose single row `[16, 32)`
has the country "-" / "-" (strings at offset 45). -/
def px1_dash_store : Store :=
  [1, 2, 21, 6, 1,  1, 0, 0, 0,  30, 0, 0, 0,  0, 0, 0, 0,  0, 0, 0, 0,  0, 0, 0, 0,  0, 0, 0, 0,
   16, 0, 0, 0,  45, 0, 0, 0,
   32, 0, 0, 0,  45, 0, 0, 0,
   1, 45, 0, 1, 45]

/-- A database of schema type 1 like `px1_store` whose single row `[16, 32)`
has the country string "DCH" (at offset 45). -/
def px1_dch_store : Store :=
  [1, 2, 21, 6, 1,  1, 0, 0, 0,  30, 0, 0, 0,  0, 0, 0, 0,  0, 0, 0, 0,  0, 0, 0, 0,  0, 0, 0, 0,
   16, 0, 0, 0,  45, 0, 0, 0,
   32, 0, 0, 0,  45, 0, 0, 0,
   3, 68, 67, 72]

/-- The package state after `Open` on `px2_store` and then, without `Close`,
`Open` on `px1_dash_store`. -/
def stale_dash_state : State := (Open px2_state (some px1_dash_store)).1

/-- The package state after `Open` on `px2_store` and then, without `Close`,
`Open` on `px1_dch_store`. -/
def stale_dch_state : State := (Open px2_state (some px1_dch_store)).1

/-! # Theorems -/

/-! ## Facts about `Open` -/

theorem Frame.refl (s : State) : Frame s s := ⟨rfl, rfl, rfl, rfl, rfl, rfl, rfl⟩

theorem Frame.trans {s1 s2 s3 : State} (h12 : Frame s1 s2) (h23 : Frame s2 s3) :
    Frame s1 s3 := by
  obtain ⟨a1, a2, a3, a4, a5, a6, a7⟩ := h12
  obtain ⟨b1, b2, b3, b4, b5, b6, b7⟩ := h23
  exact ⟨b1.trans a1, b2.trans a2, b3.trans a3, b4.trans a4, b5.trans a5, b6.trans a6,
    b7.trans a7⟩

theorem Open_country_frame {s t : State} (h : Open_country s = some t) :
    Frame s t ∧ t.metaok = s.metaok := by
  unfold Open_country at h
  cases hl : lookup country_position s.meta.databasetype with
  | none => simp [hl] at h
  | some e =>
    simp only [hl, Option.map_some', Option.some.injEq] at h
    subst h
    split <;> exact ⟨⟨rfl, rfl, rfl, rfl, rfl, rfl, rfl⟩, rfl⟩

theorem Open_region_frame {s t : State} (h : Open_region s = some t) :
    Frame s t ∧ t.metaok = s.metaok := by
  unfold Open_region at h
  cases hl : lookup region_position s.meta.databasetype with
  | none => simp [hl] at h
  | some e =>
    simp only [hl, Option.map_some', Option.some.injEq] at h
    subst h
    split <;> exact ⟨⟨rfl, rfl, rfl, rfl, rfl, rfl, rfl⟩, rfl⟩

theorem Open_city_frame {s t : State} (h : Open_city s = some t) :
    Frame s t ∧ t.metaok = s.metaok := by
  unfold Open_city at h
  cases hl : lookup city_position s.meta.databasetype with
  | none => simp [hl] at h
  | some e =>
    simp only [hl, Option.map_some', Option.some.injEq] at h
    subst h
    split <;> exact ⟨⟨rfl, rfl, rfl, rfl, rfl, rfl, rfl⟩, rfl⟩

theorem Open_isp_frame {s t : State} (h : Open_isp s = some t) :
    Frame s t ∧ t.metaok = s.metaok := by
  unfold Open_isp at h
  cases hl : lookup isp_position s.meta.databasetype with
  | none => simp [hl] at h
  | some e =>
    simp only [hl, Option.map_some', Option.some.injEq] at h
    subst h
    split <;> exact ⟨⟨rfl, rfl, rfl, rfl, rfl, rfl, rfl⟩, rfl⟩

theorem Open_proxytype_frame {s t : State} (h : Open_proxytype s = some t) :
    Frame s t ∧ t.metaok = s.metaok := by
  unfold Open_proxytype at h
  cases hl : lookup proxytype_position s.meta.databasetype with
  | none => simp [hl] at h
  | some e =>
    simp only [hl, Option.map_some', Option.some.injEq] at h
    subst h
    split <;> exact ⟨⟨rfl, rfl, rfl, rfl, rfl, rfl, rfl⟩, rfl⟩

theorem Open_domain_frame {s t : State} (h : Open_domain s = some t) :
    Frame s t ∧ t.metaok = s.metaok := by
  unfold Open_domain at h
  cases hl : lookup domain_position s.meta.databasetype with
  | none => simp [hl] at h
  | some e =>
    simp only [hl, Option.map_some', Option.some.injEq] at h
    subst h
    split <;> exact ⟨⟨rfl, rfl, rfl, rfl, rfl, rfl, rfl⟩, rfl⟩

theorem Open_usagetype_frame {s t : State} (h : Open_usagetype s = some t) :
    Frame s t ∧ t.metaok = s.metaok := by
  unfold Open_usagetype at h
  cases hl : lookup usagetype_position s.meta.databasetype with
  | none => simp [hl] at h
  | some e =>
    simp only [hl, Option.map_some', Option.some.injEq] at h
    subst h
    split <;> exact ⟨⟨rfl, rfl, rfl, rfl, rfl, rfl, rfl⟩, rfl⟩

theorem Open_asn_frame {s t : State} (h : Open_asn s = some t) :
    Frame s t ∧ t.metaok = s.metaok := by
  unfold Open_asn at h
  cases hl : lookup asn_position s.meta.databasetype with
  | none => simp [hl] at h
  | some e =>
    simp only [hl, Option.map_some', Option.some.injEq] at h
    subst h
    split <;> exact ⟨⟨rfl, rfl, rfl, rfl, rfl, rfl, rfl⟩, rfl⟩

theorem Open_as_frame {s t : State} (h : Open_as s = some t) :
    Frame s t ∧ t.metaok = s.metaok := by
  unfold Open_as at h
  cases hl : lookup as_position s.meta.databasetype with
  | none => simp [hl] at h
  | some e =>
    simp only [hl, Option.map_some', Option.some.injEq] at h
    subst h
    split <;> exact ⟨⟨rfl, rfl, rfl, rfl, rfl, rfl, rfl⟩, rfl⟩

theorem Open_lastseen_frame {s t : State} (h : Open_lastseen s = some t) :
    Frame s t ∧ t.metaok = s.metaok := by
  unfold Open_lastseen at h
  cases hl : lookup lastseen_position s.meta.databasetype with
  | none => simp [hl] at h
  | some e =>
    simp only [hl, Option.map_some', Option.some.injEq] at h
    subst h
    split <;> exact ⟨⟨rfl, rfl, rfl, rfl, rfl, rfl, rfl⟩, rfl⟩

theorem Open_fields_frame {s t : State} (h : Open_fields s = some t) :
    Frame s t ∧ t.metaok = true := by
  unfold Open_fields at h
  simp only [Option.bind_eq_bind, Option.bind_eq_some] at h
  obtain ⟨s10, ⟨s9, ⟨s8, ⟨s7, ⟨s6, ⟨s5, ⟨s4, ⟨s3, ⟨s2, ⟨s1, h1, h2⟩, h3⟩, h4⟩, h5⟩, h6⟩, h7⟩,
    h8⟩, h9⟩, h10⟩, h11⟩ := h
  simp only [Option.some.injEq] at h11
  subst h11
  have f1 := (Open_country_frame h1).1
  have f2 := (Open_region_frame h2).1
  have f3 := (Open_city_frame h3).1
  have f4 := (Open_isp_frame h4).1
  have f5 := (Open_proxytype_frame h5).1
  have f6 := (Open_domain_frame h6).1
  have f7 := (Open_usagetype_frame h7).1
  have f8 := (Open_asn_frame h8).1
  have f9 := (Open_as_frame h9).1
  have f10 := (Open_lastseen_frame h10).1
  have f := f1.trans (f2.trans (f3.trans (f4.trans (f5.trans (f6.trans (f7.trans
    (f8.trans (f9.trans f10))))))))
  exact ⟨f, rfl⟩

/-- What a successful `Open` leaves in the state: the handle, the header, the
range constants and `metaok`. -/
theorem Open_ok {prior s : State} {store : Store}
    (h : Open prior (some store) = (s, none)) :
    Frame (Open_header prior store) s ∧ s.metaok = true := by
  unfold Open at h
  simp only at h
  cases hf : Open_fields (Open_header prior store) with
  | none => simp [hf] at h
  | some t =>
    simp only [hf, Prod.mk.injEq, and_true] at h
    subst h
    exact Open_fields_frame hf

theorem Open_ok_f {prior s : State} {store : Store}
    (h : Open prior (some store) = (s, none)) : s.f = some store :=
  (Open_ok h).1.1

theorem Open_ok_metaok {prior s : State} {store : Store}
    (h : Open prior (some store) = (s, none)) : s.metaok = true :=
  (Open_ok h).2

theorem Open_ok_ranges {prior s : State} {store : Store}
    (h : Open prior (some store) = (s, none)) :
    s.max_ipv6_range = 340282366920938463463374607431768211455 ∧
    s.from_6to4 = 42545680458834377588178886921629466624 ∧
    s.to_6to4 = 42550872755692912415807417417958686719 ∧
    s.from_teredo = 42540488161975842760550356425300246528 ∧
    s.to_teredo = 42540488241204005274814694018844196863 := by
  obtain ⟨-, -, a3, a4, a5, a6, a7⟩ := (Open_ok h).1
  exact ⟨a3, a4, a5, a6, a7⟩

theorem Open_ok_colsize {prior s : State} {store : Store}
    (h : Open prior (some store) = (s, none)) :
    s.meta.ipv4columnsize % 4 = 0 ∧ s.meta.ipv6columnsize % 4 = 0 := by
  have hm := (Open_ok h).1.2.1
  rw [hm]
  simp only [Open_header, u8, Nat.shiftLeft_eq]
  constructor <;> omega

/-! ## The search loop -/

theorem rowpos_succ (b c k : Nat) : u32 (rowpos b c k + c) = rowpos b c (k + 1) := by
  unfold rowpos u32
  have h : (k + 1) * c = k * c + c := by ring
  rw [h]
  omega

/-- One iteration of the loop, in terms of the row boundaries. -/
theorem search_succ (s : State) (iptype : Nat) (ipno : Int) (b c mode fuel low high : Nat) :
    search s iptype ipno b c mode (fuel + 1) low high =
      if low ≤ high then
        if rowfrom s iptype b c (u32 (low + high) >>> 1) ≤ ipno ∧
            ipno < rowfrom s iptype b c (u32 (low + high) >>> 1 + 1) then
          some (decode s iptype mode (rowpos b c (u32 (low + high) >>> 1))
            (rowfrom s iptype b c (u32 (low + high) >>> 1))
            (rowfrom s iptype b c (u32 (low + high) >>> 1 + 1)), none)
        else if ipno < rowfrom s iptype b c (u32 (low + high) >>> 1) then
          search s iptype ipno b c mode fuel low (u32 (u32 (low + high) >>> 1 + 4294967296 - 1))
        else
          search s iptype ipno b c mode fuel (u32 (u32 (low + high) >>> 1 + 1)) high
      else some (zeroRecord, some Error.NotSupported) := by
  rw [search]
  simp only [rowfrom, ← rowpos_succ]
  rfl

theorem mid_eq (low high : Nat) (h : low + high < 4294967296) :
    u32 (low + high) >>> 1 = (low + high) / 2 := by
  unfold u32
  rw [Nat.mod_eq_of_lt h, Nat.shiftRight_eq_div_pow]

/-- The loop finds row `i` when the bounds enclose it, the rows below it in the
bounds lie at or under the value, and the rows above it up to `T` lie over it. -/
theorem search_finds (s : State) (iptype : Nat) (ipno : Int) (b c mode i T : Nat)
    (hT : T ≤ 2147483648) (hiT : i < T)
    (hfrom : rowfrom s iptype b c i ≤ ipno) (hto : ipno < rowfrom s iptype b c (i + 1))
    (hbelow : ∀ k, k < i → rowfrom s iptype b c k ≤ ipno ∧ rowfrom s iptype b c (k + 1) ≤ ipno)
    (habove : ∀ k, i < k → k < T → ipno < rowfrom s iptype b c k) :
    ∀ fuel low high, low ≤ i → i ≤ high → high ≤ T → high - low + 1 ≤ fuel →
      search s iptype ipno b c mode fuel low high =
        some (decode s iptype mode (rowpos b c i) (rowfrom s iptype b c i)
          (rowfrom s iptype b c (i + 1)), none) := by
  intro fuel
  induction fuel with
  | zero => intro low high _ _ _ hf; omega
  | succ n ih =>
    intro low high hl hh hhT hf
    have hmid := mid_eq low high (by omega)
    rw [search_succ, hmid, if_pos (hl.trans hh)]
    rcases Nat.lt_trichotomy ((low + high) / 2) i with h | h | h
    · obtain ⟨h1, h2⟩ := hbelow _ h
      rw [if_neg (by intro hc; exact absurd hc.2 (not_lt.mpr h2)), if_neg (not_lt.mpr h1)]
      have hu : u32 ((low + high) / 2 + 1) = (low + high) / 2 + 1 := by
        unfold u32; omega
      rw [hu]
      exact ih _ _ (by omega) hh hhT (by omega)
    · rw [h, if_pos ⟨hfrom, hto⟩]
    · have h1 := habove _ h (by omega)
      rw [if_neg (by intro hc; exact absurd hc.1 (not_le.mpr h1)), if_pos h1]
      have hu : u32 ((low + high) / 2 + 4294967296 - 1) = (low + high) / 2 - 1 := by
        unfold u32; omega
      rw [hu]
      exact ih _ _ hl (by omega) (by omega) (by omega)


/-! ## Readers and address values -/

theorem ReadAt_length (f : Option Store) (n : Nat) (off : Int) : (ReadAt f n off).length = n := by
  unfold ReadAt
  split <;> simp

theorem littleEndian_lt (data : List Byte) : littleEndian data < 256 ^ data.length := by
  induction data with
  | nil => simp [littleEndian]
  | cons b t ih =>
    have hb := b.isLt
    simp only [littleEndian, List.foldr_cons, List.length_cons, pow_succ] at ih ⊢
    omega

theorem readuint32_lt (f : Option Store) (pos : Nat) : readuint32 f pos < 4294967296 := by
  have h := littleEndian_lt (ReadAt f 4 ((pos : Int) - 1))
  rw [ReadAt_length] at h
  exact h

theorem Int64_of_small (x : Int) (h0 : 0 ≤ x) (h1 : x < 9223372036854775808) : Int64 x = x := by
  unfold Int64
  have hx : ((x.natAbs : Nat) : Int) = x := Int.natAbs_of_nonneg h0
  have hlt : x.natAbs < 18446744073709551616 := by omega
  simp only [Nat.mod_eq_of_lt hlt, Int.ofNat_eq_coe, hx]
  rw [if_pos h1, if_neg (not_lt.mpr h0)]

theorem rowfrom4_bounds (s : State) (b c k : Nat) :
    0 ≤ rowfrom s 4 b c k ∧ rowfrom s 4 b c k < 4294967296 := by
  unfold rowfrom readrow
  simp only [if_true]
  have h := readuint32_lt s.f (rowpos b c k)
  constructor
  · exact Int.ofNat_nonneg _
  · simp only [Int.ofNat_eq_coe]; omega

theorem SetBytes_quad (a b c d : Byte) : SetBytes [a, b, c, d] = ipv4_value a b c d := by
  show Int.ofNat ((((0 * 256 + a.val) * 256 + b.val) * 256 + c.val) * 256 + d.val) =
    Int.ofNat (a.val * 16777216 + b.val * 65536 + c.val * 256 + d.val)
  exact congrArg Int.ofNat (by omega)

theorem To4_IPv4 (a b c d : Byte) : To4 (IPv4 a b c d) = some [a, b, c, d] := by
  simp [To4, IPv4]

theorem checkip_num_IPv4 (s : State) (a b c d : Byte) :
    checkip_num s (some (IPv4 a b c d)) = (4, ipv4_value a b c d) := by
  simp only [checkip_num, To4_IPv4, SetBytes_quad]

theorem ipv4_value_bounds (a b c d : Byte) :
    0 ≤ ipv4_value a b c d ∧ ipv4_value a b c d ≤ 4294967295 := by
  have ha := a.isLt
  have hb := b.isLt
  have hc := c.isLt
  have hd := d.isLt
  unfold ipv4_value
  simp only [Int.ofNat_eq_coe]
  omega


/-! ## `query` on an IPv4 address -/

theorem query_IPv4 (s : State) (hm : s.metaok = true) (a b c d : Byte) (mode fuel : Nat) :
    query s (some (IPv4 a b c d)) mode fuel =
      search s 4 (searched max_ipv4_range (ipv4_value a b c d))
        s.meta.ipv4databaseaddr s.meta.ipv4columnsize mode fuel
        (start_low s (checkip_index s 4 (ipv4_value a b c d)))
        (start_high s (checkip_index s 4 (ipv4_value a b c d)) s.meta.ipv4databasecount) := by
  simp [query, checkip, hm, checkip_num_IPv4, searched, start_low, start_high]

theorem sorted_count_le (s : State) (iptype b c n : Nat) (hc : c % 4 = 0)
    (hsorted : ∀ k, k < n → ∀ j, j < k → rowfrom s iptype b c j < rowfrom s iptype b c k) :
    n ≤ 1073741824 := by
  by_contra hn
  have h := hsorted 1073741824 (by omega) 0 (by omega)
  have hp : rowpos b c 1073741824 = rowpos b c 0 := by
    unfold rowpos u32
    omega
  unfold rowfrom at h
  rw [hp] at h
  exact lt_irrefl _ h

theorem decode4_eq (s : State) (mode i : Nat) :
    decode s 4 mode (rowpos4 s i) (ipfrom4 s i) (ipfrom4 s (i + 1)) = row_record4 s mode i := by
  have h1 := rowfrom4_bounds s s.meta.ipv4databaseaddr s.meta.ipv4columnsize i
  have h2 := rowfrom4_bounds s s.meta.ipv4databaseaddr s.meta.ipv4columnsize (i + 1)
  unfold decode row_record4
  simp only
  rw [Int64_of_small _ (by exact h1.1) (by unfold ipfrom4; omega),
    Int64_of_small _ (by exact h2.1) (by unfold ipfrom4; omega)]

theorem query_finds_row_aux (prior s : State) (store : Store)
    (hopen : Open prior (some store) = (s, none))
    (hnoindex : s.meta.ipv4indexbaseaddr = 0)
    (hsorted : ∀ k, k < s.meta.ipv4databasecount → ∀ j, j < k → ipfrom4 s j < ipfrom4 s k)
    (a b c d : Byte) (hv : ipv4_value a b c d < 4294967295)
    (i : Nat) (hi : i < s.meta.ipv4databasecount) (mode fuel : Nat)
    (hfuel : s.meta.ipv4databasecount + 1 ≤ fuel)
    (hfrom : ipfrom4 s i ≤ ipv4_value a b c d) (hto : ipv4_value a b c d < ipfrom4 s (i + 1)) :
    query s (some (IPv4 a b c d)) mode fuel = some (row_record4 s mode i, none) := by
  have hcount := sorted_count_le s 4 _ _ _ (Open_ok_colsize hopen).1 hsorted
  rw [query_IPv4 s (Open_ok_metaok hopen)]
  have hidx : checkip_index s 4 (ipv4_value a b c d) = 0 := by
    simp [checkip_index, hnoindex]
  have hs : searched max_ipv4_range (ipv4_value a b c d) = ipv4_value a b c d := by
    unfold searched max_ipv4_range
    rw [if_neg (not_le.mpr hv)]
  rw [hidx, hs]
  simp only [start_low, start_high, lt_irrefl, if_false]
  rw [← decode4_eq]
  refine search_finds s 4 _ _ _ mode i s.meta.ipv4databasecount (by omega) hi hfrom hto ?_ ?_
    fuel 0 _ (Nat.zero_le _) (by omega) le_rfl (by omega)
  · intro k hk
    have h1 := hsorted i hi k hk
    have h2 : ipfrom4 s (k + 1) ≤ ipfrom4 s i := by
      rcases Nat.lt_or_ge (k + 1) i with h | h
      · exact le_of_lt (hsorted i hi (k + 1) h)
      · have : k + 1 = i := by omega
        rw [this]
    unfold ipfrom4 at h1 h2 hfrom
    exact ⟨by omega, by omega⟩
  · intro k hik hk
    have h2 : ipfrom4 s (i + 1) ≤ ipfrom4 s k := by
      rcases Nat.lt_or_ge (i + 1) k with h | h
      · exact le_of_lt (hsorted k hk (i + 1) h)
      · have : i + 1 = k := by omega
        rw [this]
    unfold ipfrom4 at h2 hto
    omega


/-! ## C1 -/

theorem row_record4_ne (s : State) (mode i j : Nat) (h : ipfrom4 s i ≠ ipfrom4 s j) :
    row_record4 s mode i ≠ row_record4 s mode j := by
  intro he
  have := congrArg IP2Proxyrecord.IPFrom he
  exact h this

/-- C1: on an opened database without IPv4 index whose IPv4 rows are strictly
ascending by `ip_from`, an IPv4 address of value `v < 0xFFFFFFFF` with
`from[i] <= v < from[i+1]`, row `i+1` still inside the table, is answered (given
fuel for `record_count + 1` iterations) by the record of row `i` and a nil
error: `IPFrom = from[i]`, `IPTo = from[i+1]` and the strings decoded from row
`i`.  In particular a stored `ip_from` finds its own row, and a row's `ip_to`
finds the next row and not the current one. -/
theorem query_finds_row (prior s : State) (store : Store)
    (hopen : Open prior (some store) = (s, none))
    (hnoindex : s.meta.ipv4indexbaseaddr = 0)
    (hsorted : ∀ k, k < s.meta.ipv4databasecount → ∀ j, j < k → ipfrom4 s j < ipfrom4 s k)
    (a b c d : Byte) (hv : ipv4_value a b c d < 4294967295)
    (i : Nat) (hi : i + 1 < s.meta.ipv4databasecount) (mode fuel : Nat)
    (hfuel : s.meta.ipv4databasecount + 1 ≤ fuel) :
    (ipfrom4 s i ≤ ipv4_value a b c d → ipv4_value a b c d < ipfrom4 s (i + 1) →
      query s (some (IPv4 a b c d)) mode fuel = some (row_record4 s mode i, none)) ∧
    (ipv4_value a b c d = ipfrom4 s i →
      query s (some (IPv4 a b c d)) mode fuel = some (row_record4 s mode i, none)) ∧
    (i + 2 < s.meta.ipv4databasecount → ipv4_value a b c d = ipfrom4 s (i + 1) →
      query s (some (IPv4 a b c d)) mode fuel = some (row_record4 s mode (i + 1), none) ∧
      row_record4 s mode (i + 1) ≠ row_record4 s mode i) := by
  have hstep : ∀ k, k + 1 < s.meta.ipv4databasecount → ipfrom4 s k < ipfrom4 s (k + 1) :=
    fun k hk => hsorted (k + 1) hk k (Nat.lt_succ_self k)
  refine ⟨?_, ?_, ?_⟩
  · intro hfrom hto
    exact query_finds_row_aux prior s store hopen hnoindex hsorted a b c d hv i (by omega)
      mode fuel hfuel hfrom hto
  · intro he
    exact query_finds_row_aux prior s store hopen hnoindex hsorted a b c d hv i (by omega)
      mode fuel hfuel (le_of_eq he.symm) (he ▸ hstep i hi)
  · intro hi2 he
    refine ⟨?_, row_record4_ne s mode _ _ (ne_of_gt (hstep i hi))⟩
    exact query_finds_row_aux prior s store hopen hnoindex hsorted a b c d hv (i + 1) hi
      mode fuel hfuel (le_of_eq he.symm) (he ▸ hstep (i + 1) hi2)

theorem query_finds_row_witness :
    query px2_state (some (IPv4 1 2 3 4)) all 4 = some (row_record4 px2_state all 1, none) :=
  (query_finds_row initState px2_state px2_store (by decide) (by decide) (by decide)
    1 2 3 4 (by decide) 1 (by decide) all 4 (by decide)).1 (by decide) (by decide)

theorem px2_row1 : row_record4 px2_state all 1 =
    ⟨[85, 83], [85, 83], [], [], [], [80, 85, 66], [], [], [], [], [], 1, 16777216, 33554432⟩ := by
  decide


/-! ## C2 -/

/-- Every result of the loop is a match on the row at some `mid`, or the
not-found return. -/
theorem search_outcome (s : State) (iptype : Nat) (ipno : Int) (b c mode : Nat) :
    ∀ fuel low high r, search s iptype ipno b c mode fuel low high = some r →
      (∃ k, rowfrom s iptype b c k ≤ ipno ∧ ipno < rowfrom s iptype b c (k + 1) ∧
        r = (decode s iptype mode (rowpos b c k) (rowfrom s iptype b c k)
          (rowfrom s iptype b c (k + 1)), none)) ∨
      r = (zeroRecord, some Error.NotSupported) := by
  intro fuel
  induction fuel with
  | zero => intro low high r h; simp [search] at h
  | succ n ih =>
    intro low high r h
    rw [search_succ] at h
    split at h
    · split at h
      · rename_i hm
        left
        exact ⟨_, hm.1, hm.2, (Option.some.inj h).symm⟩
      · split at h
        · exact ih _ _ _ h
        · exact ih _ _ _ h
    · right
      exact (Option.some.inj h).symm

theorem searched4_eq (a b c d : Byte) :
    searched max_ipv4_range (ipv4_value a b c d) =
      if ipv4_value a b c d = 4294967295 then 4294967294 else ipv4_value a b c d := by
  have h := ipv4_value_bounds a b c d
  unfold searched max_ipv4_range
  split <;> split <;> omega

/-- C2 (amended): on an opened database with any table contents, every result
that `query` returns for a valid IPv4 literal of value `v` is either a record
with a nil error and `IPFrom <= w < IPTo`, where `w` is the value searched for
(`v` itself when `v < 0xFFFFFFFF`, and `0xFFFFFFFE` when `v = 0xFFFFFFFF`), or
the zero record with `ErrNotSupported`. -/
theorem query_IPv4_outcome (prior s : State) (store : Store)
    (hopen : Open prior (some store) = (s, none))
    (a b c d : Byte) (mode fuel : Nat) (r : IP2Proxyrecord × Option Error)
    (h : query s (some (IPv4 a b c d)) mode fuel = some r) :
    (r.2 = none ∧
      r.1.IPFrom ≤ (if ipv4_value a b c d = 4294967295 then 4294967294
        else ipv4_value a b c d) ∧
      (if ipv4_value a b c d = 4294967295 then 4294967294 else ipv4_value a b c d) < r.1.IPTo) ∨
    r = (zeroRecord, some Error.NotSupported) := by
  rw [query_IPv4 s (Open_ok_metaok hopen), searched4_eq] at h
  rcases search_outcome s 4 _ _ _ mode _ _ _ r h with ⟨k, h1, h2, hr⟩ | hr
  · left
    have b1 := rowfrom4_bounds s s.meta.ipv4databaseaddr s.meta.ipv4columnsize k
    have b2 := rowfrom4_bounds s s.meta.ipv4databaseaddr s.meta.ipv4columnsize (k + 1)
    subst hr
    simp only [decode]
    rw [Int64_of_small _ b1.1 (by omega), Int64_of_small _ b2.1 (by omega)]
    exact ⟨trivial, h1, h2⟩
  · right
    exact hr

theorem query_IPv4_outcome_witness :
    ((row_record4 px2_state all 1, (none : Option Error)).2 = none ∧
      (row_record4 px2_state all 1, (none : Option Error)).1.IPFrom ≤
        (if ipv4_value 1 2 3 4 = 4294967295 then 4294967294 else ipv4_value 1 2 3 4) ∧
      (if ipv4_value 1 2 3 4 = 4294967295 then 4294967294 else ipv4_value 1 2 3 4) <
        (row_record4 px2_state all 1, (none : Option Error)).1.IPTo) ∨
    (row_record4 px2_state all 1, (none : Option Error)) = (zeroRecord, some Error.NotSupported) :=
  query_IPv4_outcome initState px2_state px2_store (by decide) 1 2 3 4 all 4
    (row_record4 px2_state all 1, none) (by decide)

/-- C2 fails as stated at `255.255.255.255`: on the opened example database
`query` returns row 2 with a nil error, and the address value `0xFFFFFFFF` is
not below the returned `IPTo = 0xFFFFFFFF`. -/
theorem query_IPv4_max_counterexample :
    (Open initState (some px2_store)).2 = none ∧
    query px2_state (some (IPv4 255 255 255 255)) all 4 =
      some (⟨[74, 80], [74, 97, 112, 97, 110], [], [], [], [68, 67, 72], [], [], [], [], [], 2,
        33554432, 4294967295⟩, none) ∧
    ¬ (ipv4_value 255 255 255 255 < 4294967295) := by
  decide


/-! ## C3 and C4: the wrap-around of `high = mid - 1` -/

/-- C3 at a failing input: `px1_store` opens, its table is the single row
`[16, 32)`, and the address `0.0.0.1` lies under it.  The first iteration sets
`high = 0 - 1 = 4294967295`; the second reads a "row" from the header bytes at
position 22 and matches it, so `query` returns a record with a nil error (not
the zero record with `ErrNotSupported`). -/
theorem query_below_first_row :
    (Open initState (some px1_store)).2 = none ∧
    px1_state.meta.ipv4databasecount = 1 ∧
    ipfrom4 px1_state 0 = 16 ∧ ipfrom4 px1_state 1 = 32 ∧
    ipv4_value 0 0 0 1 < ipfrom4 px1_state 0 ∧
    search px1_state 4 1 30 8 all 1 0 4294967295 =
      some (⟨[2], [1, 1, 0, 0, 0, 30], [], [], [], [], [], [], [], [], [], 1, 0, 16⟩, none) ∧
    query px1_state (some (IPv4 0 0 0 1)) all 2 =
      some (⟨[2], [1, 1, 0, 0, 0, 30], [], [], [], [], [], [], [], [], [], 1, 0, 16⟩, none) := by
  decide

theorem zero_column_rowfrom (k : Nat) : rowfrom zero_column_state 4 30 0 k = 16 := by
  have h : rowpos 30 0 k = 30 := by simp [rowpos, u32]
  rw [rowfrom, h]
  decide

theorem zero_column_search (mode : Nat) :
    ∀ fuel high, search zero_column_state 4 1 30 0 mode fuel 0 high = none := by
  intro fuel
  induction fuel with
  | zero => intro high; rfl
  | succ n ih =>
    intro high
    rw [search_succ, if_pos (Nat.zero_le _), zero_column_rowfrom, zero_column_rowfrom]
    rw [if_neg (by decide), if_pos (by decide)]
    exact ih _

/-- C4 at a failing input: `zero_column_store` opens (column count 0, so the
row size is 0 and every row is read at position 30, where the number 16 is
stored), and `query` on `0.0.0.1` never returns: in every iteration
`1 < ipfrom = 16` sends the loop to `high = mid - 1`, `low` stays 0, and
`low <= high` holds for every `uint32` value of `high`. -/
theorem query_never_returns :
    (Open initState (some zero_column_store)).2 = none ∧
    ∀ mode fuel, query zero_column_state (some (IPv4 0 0 0 1)) mode fuel = none := by
  refine ⟨by decide, ?_⟩
  intro mode fuel
  rw [query_IPv4 zero_column_state (by decide)]
  have h1 : searched max_ipv4_range (ipv4_value 0 0 0 1) = 1 := by decide
  have h2 : checkip_index zero_column_state 4 (ipv4_value 0 0 0 1) = 0 := by decide
  have h3 : zero_column_state.meta.ipv4databaseaddr = 30 := by decide
  have h4 : zero_column_state.meta.ipv4columnsize = 0 := by decide
  rw [h1, h2, h3, h4]
  exact zero_column_search mode fuel _


/-! ## C5: the index -/

theorem foldl_bytes_lt (data : List Byte) :
    ∀ acc : Nat, data.foldl (fun acc b => acc * 256 + b.val) acc < (acc + 1) * 256 ^ data.length := by
  induction data with
  | nil => intro acc; simp
  | cons b t ih =>
    intro acc
    have hb := b.isLt
    have h := ih (acc * 256 + b.val)
    simp only [List.foldl_cons, List.length_cons, pow_succ]
    have h2 : (acc * 256 + b.val + 1) * 256 ^ t.length ≤ ((acc + 1) * 256) * 256 ^ t.length :=
      Nat.mul_le_mul_right _ (by omega)
    calc _ < (acc * 256 + b.val + 1) * 256 ^ t.length := h
      _ ≤ ((acc + 1) * 256) * 256 ^ t.length := h2
      _ = (acc + 1) * (256 ^ t.length * 256) := by ring

theorem readuint128_bounds (f : Option Store) (pos : Nat) :
    0 ≤ readuint128 f pos ∧ readuint128 f pos < 340282366920938463463374607431768211456 := by
  unfold readuint128 SetBytes
  have h := foldl_bytes_lt (ReadAt f 16 ((pos : Int) - 1)).reverse 0
  rw [List.length_reverse, ReadAt_length] at h
  constructor
  · exact Int.ofNat_nonneg _
  · simp only [Int.ofNat_eq_coe]
    have h' : (List.foldl (fun acc (b : Byte) => acc * 256 + b.val) 0
        (ReadAt f 16 ((pos : Int) - 1)).reverse) < 340282366920938463463374607431768211456 := by
      simpa using h
    omega

theorem query_eq_search (s : State) (hm : s.metaok = true) (ip : Option NetIP) (mode fuel : Nat)
    (h0 : (checkip_num s ip).1 ≠ 0)
    (h6 : ¬ ((checkip_num s ip).1 ≠ 4 ∧ s.meta.ipv6databasecount = 0)) :
    query s ip mode fuel =
      search s (checkip_num s ip).1
        (searched (fam_maxip s (checkip_num s ip).1) (checkip_num s ip).2)
        (fam_base s (checkip_num s ip).1) (fam_colsize s (checkip_num s ip).1) mode fuel
        (start_low s (checkip_index s (checkip_num s ip).1 (checkip_num s ip).2))
        (start_high s (checkip_index s (checkip_num s ip).1 (checkip_num s ip).2)
          (fam_count s (checkip_num s ip).1)) := by
  unfold query
  simp only [checkip, hm, Bool.true_eq_false, if_false, if_neg h0, if_neg h6]
  rfl

theorem search_without_index (s : State) (iptype : Nat) (ipno : Int) (b c mode : Nat) :
    ∀ fuel low high, search (without_index s) iptype ipno b c mode fuel low high =
      search s iptype ipno b c mode fuel low high := by
  intro fuel
  induction fuel with
  | zero => intro low high; rfl
  | succ n ih =>
    intro low high
    rw [search_succ, search_succ, ih, ih]
    rfl


/-- On a strictly ascending table of `n` rows (row size a multiple of 4) the
loop finds the row `i < n` that holds the value, from any bounds that enclose
`i` and do not exceed `n`. -/
theorem search_sorted_finds (s : State) (iptype : Nat) (ipno : Int) (b c mode n i : Nat)
    (hc : c % 4 = 0)
    (hsorted : ∀ k, k < n → ∀ j, j < k → rowfrom s iptype b c j < rowfrom s iptype b c k)
    (hi : i < n)
    (hfrom : rowfrom s iptype b c i ≤ ipno) (hto : ipno < rowfrom s iptype b c (i + 1))
    (fuel low high : Nat) (hl : low ≤ i) (hh : i ≤ high) (hn : high ≤ n) (hf : n + 1 ≤ fuel) :
    search s iptype ipno b c mode fuel low high =
      some (decode s iptype mode (rowpos b c i) (rowfrom s iptype b c i)
        (rowfrom s iptype b c (i + 1)), none) := by
  have hcount := sorted_count_le s iptype b c n hc hsorted
  refine search_finds s iptype ipno b c mode i n (by omega) hi hfrom hto ?_ ?_
    fuel low high hl hh hn (by omega)
  · intro k hk
    have h1 := hsorted i hi k hk
    have h2 : rowfrom s iptype b c (k + 1) ≤ rowfrom s iptype b c i := by
      rcases Nat.lt_or_ge (k + 1) i with h | h
      · exact le_of_lt (hsorted i hi (k + 1) h)
      · have : k + 1 = i := by omega
        rw [this]
    exact ⟨by omega, by omega⟩
  · intro k hik hk
    have h2 : rowfrom s iptype b c (i + 1) ≤ rowfrom s iptype b c k := by
      rcases Nat.lt_or_ge (i + 1) k with h | h
      · exact le_of_lt (hsorted k hk (i + 1) h)
      · have : i + 1 = k := by omega
        rw [this]
    omega

theorem fam_from_lt_maxip (prior s : State) (store : Store)
    (hopen : Open prior (some store) = (s, none)) (t k : Nat) (ht : t = 4 ∨ t = 6) :
    fam_from s t k ≤ fam_maxip s t := by
  rcases ht with ht | ht <;> subst ht
  · have h := rowfrom4_bounds s (fam_base s 4) (fam_colsize s 4) k
    simp only [fam_from, fam_maxip, max_ipv4_range, if_true]
    omega
  · have h := readuint128_bounds s.f (rowpos (fam_base s 6) (fam_colsize s 6) k)
    have hr : fam_from s 6 k = readuint128 s.f (rowpos (fam_base s 6) (fam_colsize s 6) k) := rfl
    have hmax : fam_maxip s 6 = 340282366920938463463374607431768211455 :=
      (Open_ok_ranges hopen).1
    rw [hr, hmax]
    omega

theorem fam_colsize_mod (prior s : State) (store : Store)
    (hopen : Open prior (some store) = (s, none)) (t : Nat) : fam_colsize s t % 4 = 0 := by
  unfold fam_colsize
  split
  · exact (Open_ok_colsize hopen).1
  · exact (Open_ok_colsize hopen).2

/-- C5 (amended): on an opened database whose table (of the address's family)
is strictly ascending by `ip_from`, when the index entry at the address's index
key holds bounds `(low, high)` with `low <= i <= high` and `high <= record_count`
for the row `i` that contains the normalized value, `query` returns (given fuel
for `record_count + 1` iterations) the record of row `i` with a nil error, and
this is also the result of `query` on the same database with the index base
addresses set to 0. -/
theorem index_is_optimization (prior s : State) (store : Store)
    (hopen : Open prior (some store) = (s, none)) (ip : Option NetIP)
    (hsorted : ∀ k, k < fam_count s (norm_type s ip) → ∀ j, j < k →
      fam_from s (norm_type s ip) j < fam_from s (norm_type s ip) k)
    (hkey : 0 < norm_key s ip)
    (i : Nat) (hi : i < fam_count s (norm_type s ip))
    (hfrom : fam_from s (norm_type s ip) i ≤ norm_value s ip)
    (hto : norm_value s ip < fam_from s (norm_type s ip) (i + 1))
    (hlow : index_low s ip ≤ i) (hhigh : i ≤ index_high s ip)
    (hbound : index_high s ip ≤ fam_count s (norm_type s ip))
    (mode fuel : Nat) (hfuel : fam_count s (norm_type s ip) + 1 ≤ fuel) :
    query s ip mode fuel = query (without_index s) ip mode fuel ∧
    query s ip mode fuel =
      some (decode s (norm_type s ip) mode
        (rowpos (fam_base s (norm_type s ip)) (fam_colsize s (norm_type s ip)) i)
        (fam_from s (norm_type s ip) i) (fam_from s (norm_type s ip) (i + 1)), none) := by
  have hm := Open_ok_metaok hopen
  have ht : norm_type s ip = 4 ∨ norm_type s ip = 6 := by
    by_contra hc
    push_neg at hc
    have : norm_key s ip = 0 := by
      show checkip_index s (norm_type s ip) (norm_value s ip) = 0
      unfold checkip_index
      rw [if_neg hc.1, if_neg hc.2]
    omega
  have h0 : (checkip_num s ip).1 ≠ 0 := by
    show norm_type s ip ≠ 0
    omega
  have h6 : ¬ ((checkip_num s ip).1 ≠ 4 ∧ s.meta.ipv6databasecount = 0) := by
    rintro ⟨h4, hz⟩
    have h4' : norm_type s ip ≠ 4 := h4
    have : fam_count s (norm_type s ip) = 0 := by
      unfold fam_count
      rw [if_neg h4', hz]
    omega
  have hs : searched (fam_maxip s (norm_type s ip)) (norm_value s ip) = norm_value s ip := by
    have := fam_from_lt_maxip prior s store hopen (norm_type s ip) (i + 1) ht
    unfold searched
    rw [if_neg (by omega)]
  have hfind := fun low high hl hh hn =>
    search_sorted_finds s (norm_type s ip) (norm_value s ip) (fam_base s (norm_type s ip))
      (fam_colsize s (norm_type s ip)) mode (fam_count s (norm_type s ip)) i
      (fam_colsize_mod prior s store hopen _) hsorted hi hfrom hto fuel low high hl hh hn hfuel
  have e1 : query s ip mode fuel = some (decode s (norm_type s ip) mode
        (rowpos (fam_base s (norm_type s ip)) (fam_colsize s (norm_type s ip)) i)
        (fam_from s (norm_type s ip) i) (fam_from s (norm_type s ip) (i + 1)), none) := by
    rw [query_eq_search s hm ip mode fuel h0 h6]
    show search s (norm_type s ip) (searched (fam_maxip s (norm_type s ip)) (norm_value s ip))
      (fam_base s (norm_type s ip)) (fam_colsize s (norm_type s ip)) mode fuel
      (start_low s (norm_key s ip))
      (start_high s (norm_key s ip) (fam_count s (norm_type s ip))) = _
    rw [hs]
    have hl : start_low s (norm_key s ip) = index_low s ip := by
      unfold start_low index_low; rw [if_pos hkey]
    have hh : start_high s (norm_key s ip) (fam_count s (norm_type s ip)) = index_high s ip := by
      unfold start_high index_high; rw [if_pos hkey]
    rw [hl, hh]
    exact hfind _ _ hlow hhigh hbound
  have e2 : query (without_index s) ip mode fuel = some (decode s (norm_type s ip) mode
        (rowpos (fam_base s (norm_type s ip)) (fam_colsize s (norm_type s ip)) i)
        (fam_from s (norm_type s ip) i) (fam_from s (norm_type s ip) (i + 1)), none) := by
    rw [query_eq_search (without_index s) hm ip mode fuel h0 h6, search_without_index]
    have hk : checkip_index (without_index s) (checkip_num (without_index s) ip).1
        (checkip_num (without_index s) ip).2 = 0 := by
      unfold checkip_index
      simp [without_index]
    rw [hk]
    show search s (norm_type s ip) (searched (fam_maxip s (norm_type s ip)) (norm_value s ip))
      (fam_base s (norm_type s ip)) (fam_colsize s (norm_type s ip)) mode fuel
      (start_low (without_index s) 0)
      (start_high (without_index s) 0 (fam_count s (norm_type s ip))) = _
    rw [hs]
    have hl : start_low (without_index s) 0 = 0 := rfl
    have hh : start_high (without_index s) 0 (fam_count s (norm_type s ip)) =
        fam_count s (norm_type s ip) := rfl
    rw [hl, hh]
    exact hfind _ _ (Nat.zero_le _) (le_of_lt hi) le_rfl
  exact ⟨e1.trans e2.symm, e1⟩


theorem index_is_optimization_witness :
    query (indexed_state 0 2) (some (IPv4 0 0 0 50)) all 3 =
      query (without_index (indexed_state 0 2)) (some (IPv4 0 0 0 50)) all 3 ∧
    query (indexed_state 0 2) (some (IPv4 0 0 0 50)) all 3 =
      some (decode (indexed_state 0 2) (norm_type (indexed_state 0 2) (some (IPv4 0 0 0 50))) all
        (rowpos (fam_base (indexed_state 0 2) (norm_type (indexed_state 0 2) (some (IPv4 0 0 0 50))))
          (fam_colsize (indexed_state 0 2) (norm_type (indexed_state 0 2) (some (IPv4 0 0 0 50)))) 0)
        (fam_from (indexed_state 0 2) (norm_type (indexed_state 0 2) (some (IPv4 0 0 0 50))) 0)
        (fam_from (indexed_state 0 2) (norm_type (indexed_state 0 2) (some (IPv4 0 0 0 50)))
          (0 + 1)), none) :=
  index_is_optimization initState (indexed_state 0 2) (indexed_store 0 2) (by decide)
    (some (IPv4 0 0 0 50)) (by decide) (by decide) 0 (by decide) (by decide) (by decide)
    (by decide) (by decide) (by decide) all 3 (by decide)

/-- C5 fails as stated when the index entry reaches past the table.  The
database `indexed_store 0 7` opens, its table of 2 rows is strictly ascending,
row 0 = `[0, 100)` contains the value 50 of `0.0.0.50`, and the index entry at
the address's key 30 holds `(0, 7)` with `0 <= 0 <= 7`; yet `query` with the
index returns `ErrNotSupported` (the probes at rows 3, 5, 6 and 7 read zeros
past the end of the file), while `query` without the index returns row 0. -/
theorem index_past_table_counterexample :
    (Open initState (some (indexed_store 0 7))).2 = none ∧
    fam_count (indexed_state 0 7) 4 = 2 ∧
    fam_from (indexed_state 0 7) 4 0 = 0 ∧ fam_from (indexed_state 0 7) 4 1 = 100 ∧
    norm_type (indexed_state 0 7) (some (IPv4 0 0 0 50)) = 4 ∧
    norm_value (indexed_state 0 7) (some (IPv4 0 0 0 50)) = 50 ∧
    norm_key (indexed_state 0 7) (some (IPv4 0 0 0 50)) = 30 ∧
    index_low (indexed_state 0 7) (some (IPv4 0 0 0 50)) = 0 ∧
    index_high (indexed_state 0 7) (some (IPv4 0 0 0 50)) = 7 ∧
    query (indexed_state 0 7) (some (IPv4 0 0 0 50)) all 5 =
      some (zeroRecord, some Error.NotSupported) ∧
    query (without_index (indexed_state 0 7)) (some (IPv4 0 0 0 50)) all 5 =
      some (⟨[85, 83], [85, 83], [], [], [], [], [], [], [], [], [], 1, 0, 100⟩, none) := by
  decide


/-! ## `checkip` on IPv6 addresses -/

theorem SetBytes_16 (b0 b1 b2 b3 b4 b5 b6 b7 b8 b9 b10 b11 b12 b13 b14 b15 : Byte) :
    SetBytes [b0, b1, b2, b3, b4, b5, b6, b7, b8, b9, b10, b11, b12, b13, b14, b15] =
      Int.ofNat (b0.val * 1329227995784915872903807060280344576 + b1.val * 5192296858534827628530496329220096 + b2.val * 20282409603651670423947251286016 + b3.val * 79228162514264337593543950336 + b4.val * 309485009821345068724781056 + b5.val * 1208925819614629174706176 + b6.val * 4722366482869645213696 + b7.val * 18446744073709551616 + b8.val * 72057594037927936 + b9.val * 281474976710656 + b10.val * 1099511627776 + b11.val * 4294967296 + b12.val * 16777216 + b13.val * 65536 + b14.val * 256 + b15.val) := by
  show Int.ofNat ((((((((((((((((0 * 256 + b0.val) * 256 + b1.val) * 256 + b2.val) * 256 + b3.val) * 256 + b4.val) * 256 + b5.val) * 256 + b6.val) * 256 + b7.val) * 256 + b8.val) * 256 + b9.val) * 256 + b10.val) * 256 + b11.val) * 256 + b12.val) * 256 + b13.val) * 256 + b14.val) * 256 + b15.val) = _
  exact congrArg Int.ofNat (by omega)

theorem Rsh_ofNat (m k : Nat) : Rsh (Int.ofNat m) k = Int.ofNat (m / 2 ^ k) := by
  show Int.ofNat (m >>> k) = _
  rw [Nat.shiftRight_eq_div_pow]

theorem And_ofNat_last_32bits (m : Nat) :
    And (Int.ofNat m) last_32bits = Int.ofNat (m % 4294967296) := by
  show Int.ofNat (m &&& 4294967295) = _
  have h := Nat.and_pow_two_sub_one_eq_mod m 32
  norm_num at h
  rw [h]

theorem ldiff_mask (m : Nat) : Nat.ldiff 4294967295 m = 4294967295 - m % 4294967296 := by
  apply Nat.eq_of_testBit_eq
  intro i
  have hlt : m % 2 ^ 32 < 2 ^ 32 := Nat.mod_lt _ (by norm_num)
  have h1 := Nat.testBit_two_pow_sub_succ hlt i
  have h2 := Nat.testBit_two_pow_sub_one 32 i
  have e1 : 2 ^ 32 - (m % 2 ^ 32 + 1) = 4294967295 - m % 4294967296 := by norm_num; omega
  have e2 : 2 ^ 32 - 1 = 4294967295 := by norm_num
  rw [e1] at h1
  rw [e2] at h2
  rw [Nat.testBit_ldiff, h1, h2, Nat.testBit_mod_two_pow]
  by_cases hi : i < 32 <;> simp [hi]

theorem And_Not_ofNat (m : Nat) :
    And (Not (Int.ofNat m)) last_32bits = Int.ofNat (4294967295 - m % 4294967296) := by
  show Int.ofNat (Nat.ldiff 4294967295 m) = _
  rw [ldiff_mask]

theorem xor_mask (x : Nat) (hx : x < 4294967296) : x ^^^ 4294967295 = 4294967295 - x := by
  have h := ldiff_mask x
  rw [Nat.mod_eq_of_lt hx] at h
  rw [← h]
  apply Nat.eq_of_testBit_eq
  intro i
  have h2 := Nat.testBit_two_pow_sub_one 32 i
  have e2 : 2 ^ 32 - 1 = 4294967295 := by norm_num
  rw [e2] at h2
  rw [Nat.testBit_xor, Nat.testBit_ldiff, h2]
  by_cases hi : i < 32
  · simp [hi]
  · have hx2 : x < 2 ^ i := lt_of_lt_of_le hx (by
      have : (2 : Nat) ^ 32 ≤ 2 ^ i := Nat.pow_le_pow_right (by norm_num) (by omega)
      norm_num at this ⊢
      exact this)
    simp [hi, Nat.testBit_lt_two_pow hx2]


theorem Open_ranges (prior : State) (file : Option Store) :
    (Open prior file).1.from_6to4 = 42545680458834377588178886921629466624 ∧
    (Open prior file).1.to_6to4 = 42550872755692912415807417417958686719 ∧
    (Open prior file).1.from_teredo = 42540488161975842760550356425300246528 ∧
    (Open prior file).1.to_teredo = 42540488241204005274814694018844196863 := by
  cases file with
  | none => exact ⟨rfl, rfl, rfl, rfl⟩
  | some st =>
    unfold Open
    simp only
    cases hf : Open_fields (Open_header prior st) with
    | none => exact ⟨rfl, rfl, rfl, rfl⟩
    | some t =>
      obtain ⟨-, -, -, a4, a5, a6, a7⟩ := (Open_fields_frame hf).1
      exact ⟨a4, a5, a6, a7⟩

/-- C6: the IPv4-mapped address `::ffff:a.b.c.d` normalizes as `a.b.c.d` does.
For the 16 octets of the mapped address, for the result of `net.IPv4` (what
`net.ParseIP` returns for the dotted quad) and for the 4-octet form of
`a.b.c.d`, `checkip` returns family 4, the value `a<<24 | b<<16 | c<<8 | d` and
the same index key; the mapped-range rule (value minus range start) gives that
value too; and `query` returns the same result for them in every state, for
every mask and fuel. -/
theorem v4mapped_normalizes (s : State) (a b c d : Byte) :
    checkip s (some (v4mapped a b c d)) =
      (4, ipv4_value a b c d, checkip_index s 4 (ipv4_value a b c d)) ∧
    checkip s (some (IPv4 a b c d)) =
      (4, ipv4_value a b c d, checkip_index s 4 (ipv4_value a b c d)) ∧
    checkip s (some [a, b, c, d]) =
      (4, ipv4_value a b c d, checkip_index s 4 (ipv4_value a b c d)) ∧
    (from_v4mapped ≤ SetBytes (v4mapped a b c d) ∧ SetBytes (v4mapped a b c d) ≤ to_v4mapped ∧
      SetBytes (v4mapped a b c d) - from_v4mapped = ipv4_value a b c d) ∧
    (∀ mode fuel, query s (some (v4mapped a b c d)) mode fuel =
        query s (some (IPv4 a b c d)) mode fuel ∧
      query s (some (v4mapped a b c d)) mode fuel = query s (some [a, b, c, d]) mode fuel) := by
  have h16 : checkip_num s (some (v4mapped a b c d)) = (4, ipv4_value a b c d) :=
    checkip_num_IPv4 s a b c d
  have h4 : checkip_num s (some [a, b, c, d]) = (4, ipv4_value a b c d) := by
    simp only [checkip_num, To4, List.length_cons, List.length_nil, if_true, SetBytes_quad]
  have c16 : checkip s (some (v4mapped a b c d)) =
      (4, ipv4_value a b c d, checkip_index s 4 (ipv4_value a b c d)) := by
    unfold checkip; rw [h16]
  have c4 : checkip s (some [a, b, c, d]) =
      (4, ipv4_value a b c d, checkip_index s 4 (ipv4_value a b c d)) := by
    unfold checkip; rw [h4]
  refine ⟨c16, c16, c4, ?_, ?_⟩
  · have hb := ipv4_value_bounds a b c d
    have hs : SetBytes (v4mapped a b c d) = 281470681743360 + ipv4_value a b c d := by
      have := SetBytes_16 0 0 0 0 0 0 0 0 0 0 255 255 a b c d
      have e0 : ((0 : Byte) : Nat) = 0 := rfl
      have e255 : ((255 : Byte) : Nat) = 255 := rfl
      rw [e0, e255] at this
      rw [v4mapped, this, ipv4_value]
      simp only [Int.ofNat_eq_coe]
      omega
    rw [hs]
    unfold from_v4mapped to_v4mapped
    omega
  · intro mode fuel
    refine ⟨rfl, ?_⟩
    unfold query
    rw [c16, c4]


theorem To4_none_of_first (b0 b1 b2 b3 b4 b5 b6 b7 b8 b9 b10 b11 b12 b13 b14 b15 : Byte) (h : b0 ≠ 0) :
    To4 [b0, b1, b2, b3, b4, b5, b6, b7, b8, b9, b10, b11, b12, b13, b14, b15] = none := by
  simp [To4, h]

theorem To16_16 (b0 b1 b2 b3 b4 b5 b6 b7 b8 b9 b10 b11 b12 b13 b14 b15 : Byte) :
    To16 [b0, b1, b2, b3, b4, b5, b6, b7, b8, b9, b10, b11, b12, b13, b14, b15] = some [b0, b1, b2, b3, b4, b5, b6, b7, b8, b9, b10, b11, b12, b13, b14, b15] := by
  simp [To16]


theorem length_16 (ip : List Byte) (h : ip.length = 16) :
    ∃ b0 b1 b2 b3 b4 b5 b6 b7 b8 b9 b10 b11 b12 b13 b14 b15 : Byte,
      ip = [b0, b1, b2, b3, b4, b5, b6, b7, b8, b9, b10, b11, b12, b13, b14, b15] := by
  rcases ip with
    _ | ⟨b0, _ | ⟨b1, _ | ⟨b2, _ | ⟨b3, _ | ⟨b4, _ | ⟨b5, _ | ⟨b6, _ | ⟨b7, _ | ⟨b8, _ | ⟨b9, _ | ⟨b10, _ | ⟨b11, _ | ⟨b12, _ | ⟨b13, _ | ⟨b14, _ | ⟨b15, _ | ⟨x, t⟩⟩⟩⟩⟩⟩⟩⟩⟩⟩⟩⟩⟩⟩⟩⟩⟩
  all_goals first
    | exact ⟨_, _, _, _, _, _, _, _, _, _, _, _, _, _, _, _, rfl⟩
    | (simp only [List.length_cons, List.length_nil] at h; omega)

theorem checkip_6to4_octets (s : State)
    (r1 : s.from_6to4 = 42545680458834377588178886921629466624)
    (r2 : s.to_6to4 = 42550872755692912415807417417958686719)
    (b0 b1 b2 b3 b4 b5 b6 b7 b8 b9 b10 b11 b12 b13 b14 b15 : Byte)
    (hlo : 42545680458834377588178886921629466624 ≤ SetBytes [b0, b1, b2, b3, b4, b5, b6, b7, b8, b9, b10, b11,
      b12, b13, b14, b15])
    (hhi : SetBytes [b0, b1, b2, b3, b4, b5, b6, b7, b8, b9, b10, b11,
      b12, b13, b14, b15] ≤ 42550872755692912415807417417958686719) :
    checkip_num s (some [b0, b1, b2, b3, b4, b5, b6, b7, b8, b9, b10, b11,
      b12, b13, b14, b15]) =
      (4, And (Rsh (SetBytes [b0, b1, b2, b3, b4, b5, b6, b7, b8, b9, b10, b11,
      b12, b13, b14, b15]) 80) last_32bits) ∧
    And (Rsh (SetBytes [b0, b1, b2, b3, b4, b5, b6, b7, b8, b9, b10, b11,
      b12, b13, b14, b15]) 80) last_32bits =
      (SetBytes [b0, b1, b2, b3, b4, b5, b6, b7, b8, b9, b10, b11,
      b12, b13, b14, b15] / 1208925819614629174706176) % 4294967296 ∧
    And (Rsh (SetBytes [b0, b1, b2, b3, b4, b5, b6, b7, b8, b9, b10, b11,
      b12, b13, b14, b15]) 80) last_32bits = ipv4_value b2 b3 b4 b5 := by
  have h0 := b0.isLt
  have h1 := b1.isLt
  have h2 := b2.isLt
  have h3 := b3.isLt
  have h4 := b4.isLt
  have h5 := b5.isLt
  have h6 := b6.isLt
  have h7 := b7.isLt
  have h8 := b8.isLt
  have h9 := b9.isLt
  have h10 := b10.isLt
  have h11 := b11.isLt
  have h12 := b12.isLt
  have h13 := b13.isLt
  have h14 := b14.isLt
  have h15 := b15.isLt
  have hS := SetBytes_16 b0 b1 b2 b3 b4 b5 b6 b7 b8 b9 b10 b11 b12 b13 b14 b15
  rw [hS] at hlo hhi
  simp only [Int.ofNat_eq_coe] at hlo hhi
  have hb0 : b0.val = 32 := by omega
  have hne : b0 ≠ 0 := by
    intro hc
    rw [hc] at hb0
    exact absurd hb0 (by decide)
  have hnum : checkip_num s (some [b0, b1, b2, b3, b4, b5, b6, b7, b8, b9, b10, b11,
      b12, b13, b14, b15]) =
      (4, And (Rsh (SetBytes [b0, b1, b2, b3, b4, b5, b6, b7, b8, b9, b10, b11,
      b12, b13, b14, b15]) 80) last_32bits) := by
    simp only [checkip_num, To4_none_of_first b0 b1 b2 b3 b4 b5 b6 b7 b8 b9 b10 b11 b12 b13 b14 b15 hne, To16_16, r1, r2]
    rw [hS]
    simp only [Int.ofNat_eq_coe, from_v4mapped, to_v4mapped]
    rw [if_neg (by omega), if_pos ⟨hlo, hhi⟩]
  have hval := congrArg (fun x => And (Rsh x 80) last_32bits) hS
  simp only [Rsh_ofNat, And_ofNat_last_32bits] at hval
  refine ⟨hnum, ?_, ?_⟩
  · rw [hval, hS]
    simp only [Int.ofNat_eq_coe]
    norm_num
  · rw [hval, ipv4_value]
    simp only [Int.ofNat_eq_coe]
    norm_num
    omega

/-- C7: in every state left by a call of `Open` (the call sets the range
constants, and `query` calls `checkip` only after a successful `Open`), for
every 16-octet address whose value lies in the 6to4 range, `checkip` returns
family 4 and the value `(address >> 80) AND 0xFFFFFFFF`, which is the number
made of the four octets that follow the `2002` prefix. -/
theorem checkip_6to4 (prior : State) (file : Option Store) (ip : NetIP)
    (hlen : ip.length = 16)
    (hlo : 42545680458834377588178886921629466624 ≤ SetBytes ip)
    (hhi : SetBytes ip ≤ 42550872755692912415807417417958686719) :
    (checkip (Open prior file).1 (some ip)).1 = 4 ∧
    (checkip (Open prior file).1 (some ip)).2.1 = And (Rsh (SetBytes ip) 80) last_32bits ∧
    (checkip (Open prior file).1 (some ip)).2.1 =
      (SetBytes ip / 1208925819614629174706176) % 4294967296 ∧
    (checkip (Open prior file).1 (some ip)).2.1 =
      ipv4_value (ip.getD 2 0) (ip.getD 3 0) (ip.getD 4 0) (ip.getD 5 0) := by
  obtain ⟨r1, r2, -, -⟩ := Open_ranges prior file
  obtain ⟨b0, b1, b2, b3, b4, b5, b6, b7, b8, b9, b10, b11, b12, b13, b14, b15, rfl⟩ :=
    length_16 ip hlen
  obtain ⟨h1, h2, h3⟩ := checkip_6to4_octets _ r1 r2 b0 b1 b2 b3 b4 b5 b6 b7 b8 b9 b10 b11 b12 b13 b14 b15 hlo hhi
  have hc1 : (checkip (Open prior file).1 (some [b0, b1, b2, b3, b4, b5, b6, b7, b8, b9, b10, b11,
      b12, b13, b14, b15])).1 = 4 := by
    unfold checkip; rw [h1]
  have hc2 : (checkip (Open prior file).1 (some [b0, b1, b2, b3, b4, b5, b6, b7, b8, b9, b10, b11,
      b12, b13, b14, b15])).2.1 =
      And (Rsh (SetBytes [b0, b1, b2, b3, b4, b5, b6, b7, b8, b9, b10, b11,
      b12, b13, b14, b15]) 80) last_32bits := by
    unfold checkip; rw [h1]
  exact ⟨hc1, hc2, hc2.trans h2, hc2.trans h3⟩

theorem checkip_6to4_witness :
    (checkip px2_state (some addr_6to4_example)).1 = 4 ∧
    (checkip px2_state (some addr_6to4_example)).2.1 =
      And (Rsh (SetBytes addr_6to4_example) 80) last_32bits ∧
    (checkip px2_state (some addr_6to4_example)).2.1 =
      (SetBytes addr_6to4_example / 1208925819614629174706176) % 4294967296 ∧
    (checkip px2_state (some addr_6to4_example)).2.1 = ipv4_value 1 2 3 4 :=
  checkip_6to4 initState (some px2_store) addr_6to4_example (by decide) (by decide) (by decide)

theorem checkip_teredo_octets (s : State)
    (r1 : s.from_6to4 = 42545680458834377588178886921629466624)
    (r2 : s.to_6to4 = 42550872755692912415807417417958686719)
    (r3 : s.from_teredo = 42540488161975842760550356425300246528)
    (r4 : s.to_teredo = 42540488241204005274814694018844196863)
    (b0 b1 b2 b3 b4 b5 b6 b7 b8 b9 b10 b11 b12 b13 b14 b15 : Byte)
    (hlo : 42540488161975842760550356425300246528 ≤ SetBytes [b0, b1, b2, b3, b4, b5, b6, b7, b8, b9, b10, b11,
      b12, b13, b14, b15])
    (hhi : SetBytes [b0, b1, b2, b3, b4, b5, b6, b7, b8, b9, b10, b11,
      b12, b13, b14, b15] ≤ 42540488241204005274814694018844196863) :
    checkip_num s (some [b0, b1, b2, b3, b4, b5, b6, b7, b8, b9, b10, b11,
      b12, b13, b14, b15]) =
      (4, And (Not (SetBytes [b0, b1, b2, b3, b4, b5, b6, b7, b8, b9, b10, b11,
      b12, b13, b14, b15])) last_32bits) ∧
    And (Not (SetBytes [b0, b1, b2, b3, b4, b5, b6, b7, b8, b9, b10, b11,
      b12, b13, b14, b15])) last_32bits =
      4294967295 - SetBytes [b0, b1, b2, b3, b4, b5, b6, b7, b8, b9, b10, b11,
      b12, b13, b14, b15] % 4294967296 ∧
    And (Not (SetBytes [b0, b1, b2, b3, b4, b5, b6, b7, b8, b9, b10, b11,
      b12, b13, b14, b15])) last_32bits =
      Int.ofNat ((SetBytes [b0, b1, b2, b3, b4, b5, b6, b7, b8, b9, b10, b11,
      b12, b13, b14, b15]).toNat % 4294967296 ^^^ 4294967295) := by
  have h0 := b0.isLt
  have h1 := b1.isLt
  have h2 := b2.isLt
  have h3 := b3.isLt
  have h4 := b4.isLt
  have h5 := b5.isLt
  have h6 := b6.isLt
  have h7 := b7.isLt
  have h8 := b8.isLt
  have h9 := b9.isLt
  have h10 := b10.isLt
  have h11 := b11.isLt
  have h12 := b12.isLt
  have h13 := b13.isLt
  have h14 := b14.isLt
  have h15 := b15.isLt
  have hS := SetBytes_16 b0 b1 b2 b3 b4 b5 b6 b7 b8 b9 b10 b11 b12 b13 b14 b15
  rw [hS] at hlo hhi
  simp only [Int.ofNat_eq_coe] at hlo hhi
  have hb0 : b0.val = 32 := by omega
  have hne : b0 ≠ 0 := by
    intro hc
    rw [hc] at hb0
    exact absurd hb0 (by decide)
  have hnum : checkip_num s (some [b0, b1, b2, b3, b4, b5, b6, b7, b8, b9, b10, b11,
      b12, b13, b14, b15]) =
      (4, And (Not (SetBytes [b0, b1, b2, b3, b4, b5, b6, b7, b8, b9, b10, b11,
      b12, b13, b14, b15])) last_32bits) := by
    simp only [checkip_num, To4_none_of_first b0 b1 b2 b3 b4 b5 b6 b7 b8 b9 b10 b11 b12 b13 b14 b15 hne, To16_16, r1, r2, r3, r4]
    rw [hS]
    simp only [Int.ofNat_eq_coe, from_v4mapped, to_v4mapped]
    rw [if_neg (by omega), if_neg (by omega), if_pos ⟨hlo, hhi⟩]
  have hval := congrArg (fun x => And (Not x) last_32bits) hS
  simp only [And_Not_ofNat] at hval
  refine ⟨hnum, ?_, ?_⟩
  · rw [hval, hS]
    simp only [Int.ofNat_eq_coe]
    omega
  · rw [hval, hS]
    simp only [Int.ofNat_eq_coe, Int.toNat_ofNat]
    rw [xor_mask _ (Nat.mod_lt _ (by norm_num))]

/-- C8: in every state left by a call of `Open`, for every 16-octet address
whose value lies in the Teredo range, `checkip` returns family 4 and the value
`(NOT address) AND 0xFFFFFFFF`, which is `0xFFFFFFFF` minus the low 32 bits of
the address, that is the low 32 bits XOR `0xFFFFFFFF`. -/
theorem checkip_teredo (prior : State) (file : Option Store) (ip : NetIP)
    (hlen : ip.length = 16)
    (hlo : 42540488161975842760550356425300246528 ≤ SetBytes ip)
    (hhi : SetBytes ip ≤ 42540488241204005274814694018844196863) :
    (checkip (Open prior file).1 (some ip)).1 = 4 ∧
    (checkip (Open prior file).1 (some ip)).2.1 = And (Not (SetBytes ip)) last_32bits ∧
    (checkip (Open prior file).1 (some ip)).2.1 = 4294967295 - SetBytes ip % 4294967296 ∧
    (checkip (Open prior file).1 (some ip)).2.1 =
      Int.ofNat ((SetBytes ip).toNat % 4294967296 ^^^ 4294967295) := by
  obtain ⟨r1, r2, r3, r4⟩ := Open_ranges prior file
  obtain ⟨b0, b1, b2, b3, b4, b5, b6, b7, b8, b9, b10, b11, b12, b13, b14, b15, rfl⟩ :=
    length_16 ip hlen
  obtain ⟨h1, h2, h3⟩ := checkip_teredo_octets _ r1 r2 r3 r4 b0 b1 b2 b3 b4 b5 b6 b7 b8 b9 b10 b11 b12 b13 b14 b15 hlo hhi
  have hc1 : (checkip (Open prior file).1 (some [b0, b1, b2, b3, b4, b5, b6, b7, b8, b9, b10, b11,
      b12, b13, b14, b15])).1 = 4 := by
    unfold checkip; rw [h1]
  have hc2 : (checkip (Open prior file).1 (some [b0, b1, b2, b3, b4, b5, b6, b7, b8, b9, b10, b11,
      b12, b13, b14, b15])).2.1 =
      And (Not (SetBytes [b0, b1, b2, b3, b4, b5, b6, b7, b8, b9, b10, b11,
      b12, b13, b14, b15])) last_32bits := by
    unfold checkip; rw [h1]
  exact ⟨hc1, hc2, hc2.trans h2, hc2.trans h3⟩

theorem checkip_teredo_witness :
    (checkip px2_state (some addr_teredo_example)).1 = 4 ∧
    (checkip px2_state (some addr_teredo_example)).2.1 =
      And (Not (SetBytes addr_teredo_example)) last_32bits ∧
    (checkip px2_state (some addr_teredo_example)).2.1 =
      4294967295 - SetBytes addr_teredo_example % 4294967296 ∧
    (checkip px2_state (some addr_teredo_example)).2.1 =
      Int.ofNat ((SetBytes addr_teredo_example).toNat % 4294967296 ^^^ 4294967295) :=
  checkip_teredo initState (some px2_store) addr_teredo_example (by decide) (by decide)
    (by decide)

theorem addr_teredo_example_value :
    4294967295 - SetBytes addr_teredo_example % 4294967296 = ipv4_value 192 0 2 45 := by
  decide


/-! ## The field decoder -/

theorem mask_bit (mode k : Nat) : mode &&& 2 ^ k ≠ 0 ↔ mode.testBit k = true := by
  constructor
  · intro h
    by_contra hb
    apply h
    apply Nat.eq_of_testBit_eq
    intro i
    rw [Nat.testBit_and, Nat.testBit_two_pow, Nat.zero_testBit]
    by_cases hki : k = i
    · subst hki; simp [hb]
    · simp [hki]
  · intro h hz
    have := Nat.testBit_and mode (2 ^ k) k
    rw [hz, Nat.zero_testBit, h, Nat.testBit_two_pow_self] at this
    simp at this

/-- The mask tests of `query` in terms of the bits of the mask. -/
theorem mask_bits (mode : Nat) :
    (mode &&& countryshort ≠ 0 ↔ mode.testBit 0 = true) ∧
    (mode &&& countrylong ≠ 0 ↔ mode.testBit 1 = true) ∧
    (mode &&& region ≠ 0 ↔ mode.testBit 2 = true) ∧
    (mode &&& city ≠ 0 ↔ mode.testBit 3 = true) ∧
    (mode &&& isp ≠ 0 ↔ mode.testBit 4 = true) ∧
    (mode &&& proxytype ≠ 0 ↔ mode.testBit 5 = true) ∧
    (mode &&& isproxy ≠ 0 ↔ mode.testBit 6 = true) ∧
    (mode &&& domain ≠ 0 ↔ mode.testBit 7 = true) ∧
    (mode &&& usagetype ≠ 0 ↔ mode.testBit 8 = true) ∧
    (mode &&& asn ≠ 0 ↔ mode.testBit 9 = true) ∧
    (mode &&& as ≠ 0 ↔ mode.testBit 10 = true) ∧
    (mode &&& lastseen ≠ 0 ↔ mode.testBit 11 = true) :=
  ⟨mask_bit mode 0, mask_bit mode 1, mask_bit mode 2, mask_bit mode 3, mask_bit mode 4,
    mask_bit mode 5, mask_bit mode 6, mask_bit mode 7, mask_bit mode 8, mask_bit mode 9,
    mask_bit mode 10, mask_bit mode 11⟩

theorem decode_strings_Country_short (s : State) (t mode ro : Nat) :
    (decode_strings s t mode ro).Country_short =
      (expected_strings s mode (field_base t ro)).Country_short := by
  obtain ⟨h0, h1, h2, h3, h4, h5, h6, h7, h8, h9, h10, h11⟩ := mask_bits mode
  simp only [decode_strings, expected_strings, field_base, pointed_string,
    apply_ite IP2Proxyrecord.Country_short, ite_self, zeroRecord]
  simp only [h0, h1, h2, h3, h4, h5, h6, h7, h8, h9, h10, h11, and_comm]
  split_ifs <;> simp_all

theorem decode_strings_Country_long (s : State) (t mode ro : Nat) :
    (decode_strings s t mode ro).Country_long =
      (expected_strings s mode (field_base t ro)).Country_long := by
  obtain ⟨h0, h1, h2, h3, h4, h5, h6, h7, h8, h9, h10, h11⟩ := mask_bits mode
  simp only [decode_strings, expected_strings, field_base, pointed_string,
    apply_ite IP2Proxyrecord.Country_long, ite_self, zeroRecord]
  simp only [h0, h1, h2, h3, h4, h5, h6, h7, h8, h9, h10, h11, and_comm]
  split_ifs <;> simp_all

theorem decode_strings_Region (s : State) (t mode ro : Nat) :
    (decode_strings s t mode ro).Region =
      (expected_strings s mode (field_base t ro)).Region := by
  obtain ⟨h0, h1, h2, h3, h4, h5, h6, h7, h8, h9, h10, h11⟩ := mask_bits mode
  simp only [decode_strings, expected_strings, field_base, pointed_string,
    apply_ite IP2Proxyrecord.Region, ite_self, zeroRecord]
  simp only [h0, h1, h2, h3, h4, h5, h6, h7, h8, h9, h10, h11, and_comm]

theorem decode_strings_City (s : State) (t mode ro : Nat) :
    (decode_strings s t mode ro).City =
      (expected_strings s mode (field_base t ro)).City := by
  obtain ⟨h0, h1, h2, h3, h4, h5, h6, h7, h8, h9, h10, h11⟩ := mask_bits mode
  simp only [decode_strings, expected_strings, field_base, pointed_string,
    apply_ite IP2Proxyrecord.City, ite_self, zeroRecord]
  simp only [h0, h1, h2, h3, h4, h5, h6, h7, h8, h9, h10, h11, and_comm]

theorem decode_strings_Isp (s : State) (t mode ro : Nat) :
    (decode_strings s t mode ro).Isp =
      (expected_strings s mode (field_base t ro)).Isp := by
  obtain ⟨h0, h1, h2, h3, h4, h5, h6, h7, h8, h9, h10, h11⟩ := mask_bits mode
  simp only [decode_strings, expected_strings, field_base, pointed_string,
    apply_ite IP2Proxyrecord.Isp, ite_self, zeroRecord]
  simp only [h0, h1, h2, h3, h4, h5, h6, h7, h8, h9, h10, h11, and_comm]

theorem decode_strings_Proxy_type (s : State) (t mode ro : Nat) :
    (decode_strings s t mode ro).Proxy_type =
      (expected_strings s mode (field_base t ro)).Proxy_type := by
  obtain ⟨h0, h1, h2, h3, h4, h5, h6, h7, h8, h9, h10, h11⟩ := mask_bits mode
  simp only [decode_strings, expected_strings, field_base, pointed_string,
    apply_ite IP2Proxyrecord.Proxy_type, ite_self, zeroRecord]
  simp only [h0, h1, h2, h3, h4, h5, h6, h7, h8, h9, h10, h11, and_comm]

theorem decode_strings_Domain (s : State) (t mode ro : Nat) :
    (decode_strings s t mode ro).Domain =
      (expected_strings s mode (field_base t ro)).Domain := by
  obtain ⟨h0, h1, h2, h3, h4, h5, h6, h7, h8, h9, h10, h11⟩ := mask_bits mode
  simp only [decode_strings, expected_strings, field_base, pointed_string,
    apply_ite IP2Proxyrecord.Domain, ite_self, zeroRecord]
  simp only [h0, h1, h2, h3, h4, h5, h6, h7, h8, h9, h10, h11, and_comm]

theorem decode_strings_Usage_type (s : State) (t mode ro : Nat) :
    (decode_strings s t mode ro).Usage_type =
      (expected_strings s mode (field_base t ro)).Usage_type := by
  obtain ⟨h0, h1, h2, h3, h4, h5, h6, h7, h8, h9, h10, h11⟩ := mask_bits mode
  simp only [decode_strings, expected_strings, field_base, pointed_string,
    apply_ite IP2Proxyrecord.Usage_type, ite_self, zeroRecord]
  simp only [h0, h1, h2, h3, h4, h5, h6, h7, h8, h9, h10, h11, and_comm]

theorem decode_strings_Asn (s : State) (t mode ro : Nat) :
    (decode_strings s t mode ro).Asn =
      (expected_strings s mode (field_base t ro)).Asn := by
  obtain ⟨h0, h1, h2, h3, h4, h5, h6, h7, h8, h9, h10, h11⟩ := mask_bits mode
  simp only [decode_strings, expected_strings, field_base, pointed_string,
    apply_ite IP2Proxyrecord.Asn, ite_self, zeroRecord]
  simp only [h0, h1, h2, h3, h4, h5, h6, h7, h8, h9, h10, h11, and_comm]

theorem decode_strings_As (s : State) (t mode ro : Nat) :
    (decode_strings s t mode ro).As =
      (expected_strings s mode (field_base t ro)).As := by
  obtain ⟨h0, h1, h2, h3, h4, h5, h6, h7, h8, h9, h10, h11⟩ := mask_bits mode
  simp only [decode_strings, expected_strings, field_base, pointed_string,
    apply_ite IP2Proxyrecord.As, ite_self, zeroRecord]
  simp only [h0, h1, h2, h3, h4, h5, h6, h7, h8, h9, h10, h11, and_comm]

theorem decode_strings_Last_seen (s : State) (t mode ro : Nat) :
    (decode_strings s t mode ro).Last_seen =
      (expected_strings s mode (field_base t ro)).Last_seen := by
  obtain ⟨h0, h1, h2, h3, h4, h5, h6, h7, h8, h9, h10, h11⟩ := mask_bits mode
  simp only [decode_strings, expected_strings, field_base, pointed_string,
    apply_ite IP2Proxyrecord.Last_seen, ite_self, zeroRecord]
  simp only [h0, h1, h2, h3, h4, h5, h6, h7, h8, h9, h10, h11, and_comm]

/-- The strings `query` decodes from a matched row are those the specification
describes. -/
theorem decode_strings_expected (s : State) (t mode ro : Nat) :
    same_strings (decode_strings s t mode ro) (expected_strings s mode (field_base t ro)) :=
  ⟨decode_strings_Country_short s t mode ro, decode_strings_Country_long s t mode ro,
    decode_strings_Region s t mode ro, decode_strings_City s t mode ro,
    decode_strings_Isp s t mode ro, decode_strings_Proxy_type s t mode ro,
    decode_strings_Domain s t mode ro, decode_strings_Usage_type s t mode ro,
    decode_strings_Asn s t mode ro, decode_strings_As s t mode ro,
    decode_strings_Last_seen s t mode ro⟩


/-- Every result of `query` is the zero record with an error, or the record
decoded from a row `k` whose range holds the value searched for, with a nil
error. -/
theorem query_result_cases (s : State) (ip : Option NetIP) (mode fuel : Nat)
    (res : IP2Proxyrecord × Option Error) (h : query s ip mode fuel = some res) :
    (res.1 = zeroRecord ∧ res.2 ≠ none) ∨
    (∃ k,
      fam_from s (norm_type s ip) k ≤
        searched (fam_maxip s (norm_type s ip)) (norm_value s ip) ∧
      searched (fam_maxip s (norm_type s ip)) (norm_value s ip) <
        fam_from s (norm_type s ip) (k + 1) ∧
      res = (decode s (norm_type s ip) mode
        (rowpos (fam_base s (norm_type s ip)) (fam_colsize s (norm_type s ip)) k)
        (fam_from s (norm_type s ip) k) (fam_from s (norm_type s ip) (k + 1)), none)) := by
  by_cases hm : s.metaok = false
  · left
    unfold query at h
    rw [if_pos hm] at h
    rw [← Option.some.inj h]
    exact ⟨rfl, by simp⟩
  by_cases h0 : (checkip_num s ip).1 = 0
  · left
    unfold query at h
    simp only [checkip, if_neg hm, if_pos h0] at h
    rw [← Option.some.inj h]
    exact ⟨rfl, by simp⟩
  by_cases h6 : (checkip_num s ip).1 ≠ 4 ∧ s.meta.ipv6databasecount = 0
  · left
    unfold query at h
    simp only [checkip, if_neg hm, if_neg h0, if_pos h6] at h
    rw [← Option.some.inj h]
    exact ⟨rfl, by simp⟩
  rw [query_eq_search s (by simpa using hm) ip mode fuel h0 h6] at h
  rcases search_outcome s _ _ _ _ mode _ _ _ res h with ⟨k, h1, h2, hr⟩ | hr
  · right
    exact ⟨k, h1, h2, hr⟩
  · left
    rw [hr]
    exact ⟨rfl, by simp⟩

/-! ## C9 -/

/-- C9 (amended): for every record `query` returns with a nil error, `Is_proxy`
is 0 whenever `Country_short` or `Proxy_type` is "-"; when `Country_short` is
not "-", `Is_proxy` is 2 exactly when `Proxy_type` is "DCH" or "SES"; and when
`Country_short` is not "-", `Is_proxy` is 1 for every other `Proxy_type`
different from "-". -/
theorem query_classification (s : State) (ip : Option NetIP) (mode fuel : Nat)
    (r : IP2Proxyrecord) (h : query s ip mode fuel = some (r, none)) :
    (r.Country_short = str_dash ∨ r.Proxy_type = str_dash → r.Is_proxy = 0) ∧
    (r.Country_short ≠ str_dash →
      (r.Is_proxy = 2 ↔ r.Proxy_type = str_DCH ∨ r.Proxy_type = str_SES)) ∧
    (r.Country_short ≠ str_dash → r.Proxy_type ≠ str_dash → r.Proxy_type ≠ str_DCH →
      r.Proxy_type ≠ str_SES → r.Is_proxy = 1) := by
  rcases query_result_cases s ip mode fuel _ h with ⟨-, hne⟩ | ⟨k, -, -, hr⟩
  · exact absurd rfl hne
  · have hr1 := congrArg Prod.fst hr
    simp only at hr1
    subst hr1
    have hd1 : str_DCH ≠ str_dash := by decide
    have hd2 : str_SES ≠ str_dash := by decide
    simp only [decode, classify]
    refine ⟨?_, ?_, ?_⟩
    · intro hc
      rw [if_pos hc]
    · intro hcs
      split_ifs with h1 h2
      · rcases h1 with h1 | h1
        · exact absurd h1 hcs
        · constructor
          · intro hx; exact absurd hx (by decide)
          · rintro (hx | hx)
            · rw [hx] at h1; exact absurd h1 hd1
            · rw [hx] at h1; exact absurd h1 hd2
      · exact ⟨fun _ => h2, fun _ => rfl⟩
      · constructor
        · intro hx; exact absurd hx (by decide)
        · intro hx; exact absurd hx h2
    · intro hcs hp1 hp2 hp3
      rw [if_neg (by rintro (hx | hx); exact hcs hx; exact hp1 hx),
        if_neg (by rintro (hx | hx); exact hp2 hx; exact hp3 hx)]

theorem query_classification_witness :
    ((row_record4 px2_state all 1).Country_short = str_dash ∨
        (row_record4 px2_state all 1).Proxy_type = str_dash →
      (row_record4 px2_state all 1).Is_proxy = 0) ∧
    ((row_record4 px2_state all 1).Country_short ≠ str_dash →
      ((row_record4 px2_state all 1).Is_proxy = 2 ↔
        (row_record4 px2_state all 1).Proxy_type = str_DCH ∨
          (row_record4 px2_state all 1).Proxy_type = str_SES)) ∧
    ((row_record4 px2_state all 1).Country_short ≠ str_dash →
      (row_record4 px2_state all 1).Proxy_type ≠ str_dash →
      (row_record4 px2_state all 1).Proxy_type ≠ str_DCH →
      (row_record4 px2_state all 1).Proxy_type ≠ str_SES →
      (row_record4 px2_state all 1).Is_proxy = 1) :=
  query_classification px2_state (some (IPv4 1 2 3 4)) all 4 (row_record4 px2_state all 1)
    (by decide)

/-- C9 fails as stated on a row whose country is "-" and whose proxy type is
"DCH": for `0.1.2.3` the example database returns row 0 with
`Country_short = "-"`, `Proxy_type = "DCH"` and `Is_proxy = 0`, so `Is_proxy`
is not 2 although `Proxy_type` is "DCH". -/
theorem dch_unknown_country_counterexample :
    query px2_state (some (IPv4 0 1 2 3)) all 4 =
      some (⟨[45], [45], [], [], [], [68, 67, 72], [], [], [], [], [], 0, 0, 16777216⟩, none) ∧
    ¬ ((0 : Int) = 2 ↔ (([68, 67, 72] : GoString) = str_DCH ∨ ([68, 67, 72] : GoString) = str_SES)) := by
  decide


/-! ## Which fields are decoded -/

theorem expected_strings_region_only (s : State) (base : Nat) :
    (expected_strings s region base).Country_short = [] ∧
    (expected_strings s region base).Country_long = [] ∧
    (expected_strings s region base).City = [] ∧
    (expected_strings s region base).Isp = [] ∧
    (expected_strings s region base).Proxy_type = [] ∧
    (expected_strings s region base).Domain = [] ∧
    (expected_strings s region base).Usage_type = [] ∧
    (expected_strings s region base).Asn = [] ∧
    (expected_strings s region base).As = [] ∧
    (expected_strings s region base).Last_seen = [] := by
  have b0 : Nat.testBit region 0 = false := by decide
  have b1 : Nat.testBit region 1 = false := by decide
  have b3 : Nat.testBit region 3 = false := by decide
  have b4 : Nat.testBit region 4 = false := by decide
  have b5 : Nat.testBit region 5 = false := by decide
  have b6 : Nat.testBit region 6 = false := by decide
  have b7 : Nat.testBit region 7 = false := by decide
  have b8 : Nat.testBit region 8 = false := by decide
  have b9 : Nat.testBit region 9 = false := by decide
  have b10 : Nat.testBit region 10 = false := by decide
  have b11 : Nat.testBit region 11 = false := by decide
  simp [expected_strings, b0, b1, b3, b4, b5, b6, b7, b8, b9, b10, b11]

/-- The selection logic of the field decoder, in terms of the enabled flags the
descriptor holds: every result of `query` is either the zero record with an
error, or comes from a matched row `k` (its range holds the value searched
for), and then the error is nil and each of the eleven strings is read from the
row's pointer if and only if the flag of the field is set and the field is
requested by the mask (`is_proxy` also requesting `Proxy_type` and
`Country_short`, not `Country_long`), every other string being empty.  In
particular a mask of only `region` leaves every string but `Region` empty. -/
theorem query_decodes_requested (s : State) (ip : Option NetIP) (mode fuel : Nat)
    (res : IP2Proxyrecord × Option Error) (h : query s ip mode fuel = some res) :
    ((res.1 = zeroRecord ∧ res.2 ≠ none) ∨
      (∃ k,
        fam_from s (norm_type s ip) k ≤
          searched (fam_maxip s (norm_type s ip)) (norm_value s ip) ∧
        searched (fam_maxip s (norm_type s ip)) (norm_value s ip) <
          fam_from s (norm_type s ip) (k + 1) ∧
        res.2 = none ∧
        same_strings res.1 (expected_strings s mode (field_base (norm_type s ip)
          (rowpos (fam_base s (norm_type s ip)) (fam_colsize s (norm_type s ip)) k))))) ∧
    (mode = region →
      res.1.Country_short = [] ∧ res.1.Country_long = [] ∧ res.1.City = [] ∧
      res.1.Isp = [] ∧ res.1.Proxy_type = [] ∧ res.1.Domain = [] ∧ res.1.Usage_type = [] ∧
      res.1.Asn = [] ∧ res.1.As = [] ∧ res.1.Last_seen = []) := by
  rcases query_result_cases s ip mode fuel res h with ⟨hz, hne⟩ | ⟨k, h1, h2, hr⟩
  · refine ⟨Or.inl ⟨hz, hne⟩, ?_⟩
    intro _
    rw [hz]
    exact ⟨rfl, rfl, rfl, rfl, rfl, rfl, rfl, rfl, rfl, rfl⟩
  · have hs := decode_strings_expected s (norm_type s ip) mode
      (rowpos (fam_base s (norm_type s ip)) (fam_colsize s (norm_type s ip)) k)
    have hsame : same_strings res.1 (expected_strings s mode (field_base (norm_type s ip)
        (rowpos (fam_base s (norm_type s ip)) (fam_colsize s (norm_type s ip)) k))) := by
      rw [hr]
      exact hs
    refine ⟨Or.inr ⟨k, h1, h2, by rw [hr], hsame⟩, ?_⟩
    intro hmode
    subst hmode
    obtain ⟨e1, e2, _, e4, e5, e6, e7, e8, e9, e10, e11⟩ := hsame
    obtain ⟨z1, z2, z4, z5, z6, z7, z8, z9, z10, z11⟩ := expected_strings_region_only s
      (field_base (norm_type s ip)
        (rowpos (fam_base s (norm_type s ip)) (fam_colsize s (norm_type s ip)) k))
    exact ⟨e1.trans z1, e2.trans z2, e4.trans z4, e5.trans z5, e6.trans z6, e7.trans z7,
      e8.trans z8, e9.trans z9, e10.trans z10, e11.trans z11⟩

theorem query_decodes_requested_witness :
    (row_record4 px2_state region 2).Country_short = [] ∧
    (row_record4 px2_state region 2).Country_long = [] ∧
    (row_record4 px2_state region 2).City = [] ∧
    (row_record4 px2_state region 2).Isp = [] ∧
    (row_record4 px2_state region 2).Proxy_type = [] ∧
    (row_record4 px2_state region 2).Domain = [] ∧
    (row_record4 px2_state region 2).Usage_type = [] ∧
    (row_record4 px2_state region 2).Asn = [] ∧
    (row_record4 px2_state region 2).As = [] ∧
    (row_record4 px2_state region 2).Last_seen = [] :=
  (query_decodes_requested px2_state (some (IPv4 2 2 3 4)) region 4
    (row_record4 px2_state region 2, none) (by decide)).2 rfl


/-! ## C11: queries without a successful `Open` -/

/-- With `metaok` false `query` and `GetAll` return "MISSING FILE" and the zero
record at once: for every address, mask and fuel (0 included), whatever the
handle holds. -/
theorem query_not_ready (s : State) (hm : s.metaok = false) (ip : Option NetIP)
    (mode fuel : Nat) :
    query s ip mode fuel = some (zeroRecord, some Error.MissingFile) ∧
    GetAll s ip fuel = some (zeroRecord, some Error.MissingFile) := by
  unfold GetAll query
  rw [if_pos hm, if_pos hm]
  exact ⟨rfl, rfl⟩

/-- `metaok` is false in a fresh process and after `Close`, and a failed `Open`
leaves it as it was. -/
theorem metaok_without_open (s : State) :
    initState.metaok = false ∧ (Close s).1.metaok = false ∧
    (Open s none).1.metaok = s.metaok ∧ (Open s none).1.f = none ∧
    (Open s none).1.meta = s.meta ∧ (Open s none).2 = some Error.OpenFailed :=
  ⟨rfl, rfl, rfl, rfl, rfl, rfl⟩

/-- C11 at a failing input: after a successful `Open` of `px2_store`, an `Open`
that cannot open its file returns the error of `os.Open`, sets the handle to
nil and leaves `metaok` true; `query` and `GetAll` on `1.2.3.4` then search
the old descriptor over a nil handle (every read gives zeros) and return
`ErrNotSupported`, not "MISSING FILE". -/
theorem query_after_failed_reopen :
    (Open initState (some px2_store)).2 = none ∧
    (Open px2_state none).2 = some Error.OpenFailed ∧
    (Open px2_state none).1.f = none ∧
    (Open px2_state none).1.metaok = true ∧
    query (Open px2_state none).1 (some (IPv4 1 2 3 4)) all 4 =
      some (zeroRecord, some Error.NotSupported) ∧
    GetAll (Open px2_state none).1 (some (IPv4 1 2 3 4)) 4 =
      some (zeroRecord, some Error.NotSupported) := by
  decide

/-! ## C12: IPv6 addresses on a database without IPv6 table -/

theorem search_error (s : State) (iptype : Nat) (ipno : Int) (b c mode fuel low high : Nat)
    (res : IP2Proxyrecord × Option Error)
    (h : search s iptype ipno b c mode fuel low high = some res) :
    res.2 = none ∨ res.2 = some Error.NotSupported := by
  rcases search_outcome s iptype ipno b c mode fuel low high res h with ⟨k, -, -, hr⟩ | hr
  · left; rw [hr]
  · right; rw [hr]

/-- C12: on an opened database whose IPv6 record count is 0, every address
that normalizes to family 6 gets the zero record with "IPV6 ADDRESS MISSING IN
IPV4 BIN" for every mask and every fuel (0 included: the loop is not entered,
no index entry or row is read); and in every state no address that normalizes
to family 4 gets this error. -/
theorem ipv6_unsupported (s : State) (ip : Option NetIP) (mode fuel : Nat) :
    (∀ prior store, Open prior (some store) = (s, none) → s.meta.ipv6databasecount = 0 →
      norm_type s ip = 6 →
      query s ip mode fuel = some (zeroRecord, some Error.IPv6Unsupported)) ∧
    (norm_type s ip = 4 → ∀ res, query s ip mode fuel = some res →
      res.2 ≠ some Error.IPv6Unsupported) := by
  constructor
  · intro prior store hopen hc h6
    have hm := Open_ok_metaok hopen
    have h6' : (checkip s ip).1 = 6 := h6
    unfold query
    simp only [hm, h6', hc]
    simp
  · intro h4 res h
    have h4' : (checkip_num s ip).1 = 4 := h4
    by_cases hm : s.metaok = false
    · have := (query_not_ready s hm ip mode fuel).1
      rw [this] at h
      rw [← Option.some.inj h]
      decide
    · rw [query_eq_search s (by simpa using hm) ip mode fuel (by rw [h4']; decide)
        (by rw [h4']; simp)] at h
      rcases search_error _ _ _ _ _ _ _ _ _ _ h with h | h <;> rw [h] <;> decide

theorem ipv6_unsupported_witness :
    query px2_state (some addr_v6_example) all 0 =
      some (zeroRecord, some Error.IPv6Unsupported) :=
  (ipv6_unsupported px2_state (some addr_v6_example) all 0).1 initState px2_store
    (by decide) (by decide) (by decide)


/-! ## C13: the table lookups of `Open` -/

theorem Open_country_some (s : State) (h : s.meta.databasetype ≤ 8) :
    ∃ t, Open_country s = some t ∧ t.meta = s.meta := by
  have hl : ∃ e, lookup country_position s.meta.databasetype = some e := by
    generalize s.meta.databasetype = d at h
    interval_cases d <;> exact ⟨_, rfl⟩
  obtain ⟨e, he⟩ := hl
  have ho : Open_country s = some (if e ≠ 0 then
      { s with country_position_offset := position_offset e, country_enabled := true } else s) := by
    unfold Open_country
    rw [he]
    rfl
  exact ⟨_, ho, (Open_country_frame ho).1.2.1⟩

theorem Open_region_some (s : State) (h : s.meta.databasetype ≤ 8) :
    ∃ t, Open_region s = some t ∧ t.meta = s.meta := by
  have hl : ∃ e, lookup region_position s.meta.databasetype = some e := by
    generalize s.meta.databasetype = d at h
    interval_cases d <;> exact ⟨_, rfl⟩
  obtain ⟨e, he⟩ := hl
  have ho : Open_region s = some (if e ≠ 0 then
      { s with region_position_offset := position_offset e, region_enabled := true } else s) := by
    unfold Open_region
    rw [he]
    rfl
  exact ⟨_, ho, (Open_region_frame ho).1.2.1⟩

theorem Open_city_some (s : State) (h : s.meta.databasetype ≤ 8) :
    ∃ t, Open_city s = some t ∧ t.meta = s.meta := by
  have hl : ∃ e, lookup city_position s.meta.databasetype = some e := by
    generalize s.meta.databasetype = d at h
    interval_cases d <;> exact ⟨_, rfl⟩
  obtain ⟨e, he⟩ := hl
  have ho : Open_city s = some (if e ≠ 0 then
      { s with city_position_offset := position_offset e, city_enabled := true } else s) := by
    unfold Open_city
    rw [he]
    rfl
  exact ⟨_, ho, (Open_city_frame ho).1.2.1⟩

theorem Open_isp_some (s : State) (h : s.meta.databasetype ≤ 8) :
    ∃ t, Open_isp s = some t ∧ t.meta = s.meta := by
  have hl : ∃ e, lookup isp_position s.meta.databasetype = some e := by
    generalize s.meta.databasetype = d at h
    interval_cases d <;> exact ⟨_, rfl⟩
  obtain ⟨e, he⟩ := hl
  have ho : Open_isp s = some (if e ≠ 0 then
      { s with isp_position_offset := position_offset e, isp_enabled := true } else s) := by
    unfold Open_isp
    rw [he]
    rfl
  exact ⟨_, ho, (Open_isp_frame ho).1.2.1⟩

theorem Open_proxytype_some (s : State) (h : s.meta.databasetype ≤ 8) :
    ∃ t, Open_proxytype s = some t ∧ t.meta = s.meta := by
  have hl : ∃ e, lookup proxytype_position s.meta.databasetype = some e := by
    generalize s.meta.databasetype = d at h
    interval_cases d <;> exact ⟨_, rfl⟩
  obtain ⟨e, he⟩ := hl
  have ho : Open_proxytype s = some (if e ≠ 0 then
      { s with proxytype_position_offset := position_offset e, proxytype_enabled := true } else s) := by
    unfold Open_proxytype
    rw [he]
    rfl
  exact ⟨_, ho, (Open_proxytype_frame ho).1.2.1⟩

theorem Open_domain_some (s : State) (h : s.meta.databasetype ≤ 8) :
    ∃ t, Open_domain s = some t ∧ t.meta = s.meta := by
  have hl : ∃ e, lookup domain_position s.meta.databasetype = some e := by
    generalize s.meta.databasetype = d at h
    interval_cases d <;> exact ⟨_, rfl⟩
  obtain ⟨e, he⟩ := hl
  have ho : Open_domain s = some (if e ≠ 0 then
      { s with domain_position_offset := position_offset e, domain_enabled := true } else s) := by
    unfold Open_domain
    rw [he]
    rfl
  exact ⟨_, ho, (Open_domain_frame ho).1.2.1⟩

theorem Open_usagetype_some (s : State) (h : s.meta.databasetype ≤ 8) :
    ∃ t, Open_usagetype s = some t ∧ t.meta = s.meta := by
  have hl : ∃ e, lookup usagetype_position s.meta.databasetype = some e := by
    generalize s.meta.databasetype = d at h
    interval_cases d <;> exact ⟨_, rfl⟩
  obtain ⟨e, he⟩ := hl
  have ho : Open_usagetype s = some (if e ≠ 0 then
      { s with usagetype_position_offset := position_offset e, usagetype_enabled := true } else s) := by
    unfold Open_usagetype
    rw [he]
    rfl
  exact ⟨_, ho, (Open_usagetype_frame ho).1.2.1⟩

theorem Open_asn_some (s : State) (h : s.meta.databasetype ≤ 8) :
    ∃ t, Open_asn s = some t ∧ t.meta = s.meta := by
  have hl : ∃ e, lookup asn_position s.meta.databasetype = some e := by
    generalize s.meta.databasetype = d at h
    interval_cases d <;> exact ⟨_, rfl⟩
  obtain ⟨e, he⟩ := hl
  have ho : Open_asn s = some (if e ≠ 0 then
      { s with asn_position_offset := position_offset e, asn_enabled := true } else s) := by
    unfold Open_asn
    rw [he]
    rfl
  exact ⟨_, ho, (Open_asn_frame ho).1.2.1⟩

theorem Open_as_some (s : State) (h : s.meta.databasetype ≤ 8) :
    ∃ t, Open_as s = some t ∧ t.meta = s.meta := by
  have hl : ∃ e, lookup as_position s.meta.databasetype = some e := by
    generalize s.meta.databasetype = d at h
    interval_cases d <;> exact ⟨_, rfl⟩
  obtain ⟨e, he⟩ := hl
  have ho : Open_as s = some (if e ≠ 0 then
      { s with as_position_offset := position_offset e, as_enabled := true } else s) := by
    unfold Open_as
    rw [he]
    rfl
  exact ⟨_, ho, (Open_as_frame ho).1.2.1⟩

theorem Open_lastseen_some (s : State) (h : s.meta.databasetype ≤ 8) :
    ∃ t, Open_lastseen s = some t ∧ t.meta = s.meta := by
  have hl : ∃ e, lookup lastseen_position s.meta.databasetype = some e := by
    generalize s.meta.databasetype = d at h
    interval_cases d <;> exact ⟨_, rfl⟩
  obtain ⟨e, he⟩ := hl
  have ho : Open_lastseen s = some (if e ≠ 0 then
      { s with lastseen_position_offset := position_offset e, lastseen_enabled := true } else s) := by
    unfold Open_lastseen
    rw [he]
    rfl
  exact ⟨_, ho, (Open_lastseen_frame ho).1.2.1⟩

theorem Open_fields_some (s : State) (h : s.meta.databasetype ≤ 8) :
    ∃ t, Open_fields s = some t := by
  obtain ⟨s1, h1, m1⟩ := Open_country_some s (by exact h)
  obtain ⟨s2, h2, m2⟩ := Open_region_some s1 (by rw [m1]; exact h)
  obtain ⟨s3, h3, m3⟩ := Open_city_some s2 (by rw [m2, m1]; exact h)
  obtain ⟨s4, h4, m4⟩ := Open_isp_some s3 (by rw [m3, m2, m1]; exact h)
  obtain ⟨s5, h5, m5⟩ := Open_proxytype_some s4 (by rw [m4, m3, m2, m1]; exact h)
  obtain ⟨s6, h6, m6⟩ := Open_domain_some s5 (by rw [m5, m4, m3, m2, m1]; exact h)
  obtain ⟨s7, h7, m7⟩ := Open_usagetype_some s6 (by rw [m6, m5, m4, m3, m2, m1]; exact h)
  obtain ⟨s8, h8, m8⟩ := Open_asn_some s7 (by rw [m7, m6, m5, m4, m3, m2, m1]; exact h)
  obtain ⟨s9, h9, m9⟩ := Open_as_some s8 (by rw [m8, m7, m6, m5, m4, m3, m2, m1]; exact h)
  obtain ⟨s10, h10, m10⟩ := Open_lastseen_some s9 (by rw [m9, m8, m7, m6, m5, m4, m3, m2, m1]; exact h)
  refine ⟨{ s10 with metaok := true }, ?_⟩
  unfold Open_fields
  simp only [Option.bind_eq_bind, h1, h2, h3, h4, h5, h6, h7, h8, h9, h10, Option.some_bind]

theorem lookup_none (d : Nat) (h : 9 ≤ d) : lookup country_position d = none := by
  unfold lookup country_position
  rw [List.getElem?_eq_none_iff]
  simpa using h

theorem Open_fields_none (s : State) (h : 9 ≤ s.meta.databasetype) : Open_fields s = none := by
  unfold Open_fields Open_country
  rw [lookup_none _ h]
  rfl

/-- C13 (amended): for every header whose schema-type byte is one of 1..8 (the
ten position tables have 9 entries, indices 0..8), each of the ten table lookups
of `Open` is in range, and `Open` completes with a nil error and `metaok`
set. -/
theorem Open_lookups_in_range (prior : State) (store : Store)
    (h1 : 1 ≤ readuint8 (some store) 1) (h8 : readuint8 (some store) 1 ≤ 8) :
    (lookup country_position (readuint8 (some store) 1) ≠ none ∧
      lookup region_position (readuint8 (some store) 1) ≠ none ∧
      lookup city_position (readuint8 (some store) 1) ≠ none ∧
      lookup isp_position (readuint8 (some store) 1) ≠ none ∧
      lookup proxytype_position (readuint8 (some store) 1) ≠ none ∧
      lookup domain_position (readuint8 (some store) 1) ≠ none ∧
      lookup usagetype_position (readuint8 (some store) 1) ≠ none ∧
      lookup asn_position (readuint8 (some store) 1) ≠ none ∧
      lookup as_position (readuint8 (some store) 1) ≠ none ∧
      lookup lastseen_position (readuint8 (some store) 1) ≠ none) ∧
    (Open prior (some store)).2 = none ∧
    (Open prior (some store)).1.metaok = true ∧
    (Open prior (some store)).1.meta.databasetype = readuint8 (some store) 1 := by
  refine ⟨?_, ?_⟩
  · generalize readuint8 (some store) 1 = d at h1 h8
    interval_cases d <;> decide
  · obtain ⟨t, ht⟩ := Open_fields_some (Open_header prior store) h8
    have hf := Open_fields_frame ht
    have ho : Open prior (some store) = (t, none) := by
      unfold Open
      simp only [ht]
    rw [ho]
    exact ⟨rfl, hf.2, by rw [hf.1.2.1]; rfl⟩

theorem Open_lookups_in_range_witness :
    (lookup country_position (readuint8 (some px2_store) 1) ≠ none ∧
      lookup region_position (readuint8 (some px2_store) 1) ≠ none ∧
      lookup city_position (readuint8 (some px2_store) 1) ≠ none ∧
      lookup isp_position (readuint8 (some px2_store) 1) ≠ none ∧
      lookup proxytype_position (readuint8 (some px2_store) 1) ≠ none ∧
      lookup domain_position (readuint8 (some px2_store) 1) ≠ none ∧
      lookup usagetype_position (readuint8 (some px2_store) 1) ≠ none ∧
      lookup asn_position (readuint8 (some px2_store) 1) ≠ none ∧
      lookup as_position (readuint8 (some px2_store) 1) ≠ none ∧
      lookup lastseen_position (readuint8 (some px2_store) 1) ≠ none) ∧
    (Open initState (some px2_store)).2 = none ∧
    (Open initState (some px2_store)).1.metaok = true ∧
    (Open initState (some px2_store)).1.meta.databasetype = readuint8 (some px2_store) 1 :=
  Open_lookups_in_range initState px2_store (by decide) (by decide)

/-- C13 fails as stated at schema type 9: the header of `type9_store` carries
the schema-type byte 9, the first table lookup `country_position[9]` is out of
range (the tables have 9 entries), and `Open` panics instead of completing;
`metaok` stays false. -/
theorem Open_type9_counterexample :
    readuint8 (some type9_store) 1 = 9 ∧
    lookup country_position 9 = none ∧
    (Open initState (some type9_store)).2 = some Error.IndexOutOfRange ∧
    (Open initState (some type9_store)).1.metaok = false := by
  decide


/-! ## C14: the field layout after `Open` -/

/-- What the ten blocks of `Open` do to the flags and offsets: a nonzero table
entry sets the flag and stores `(entry - 1) * 4`; a zero entry leaves the flag
and the offset of the state before `Open` in place. -/
theorem Open_fields_layout (s1 s : State) (h : Open_fields s1 = some s) :
    (∃ e, lookup country_position s1.meta.databasetype = some e ∧
      s.country_enabled = (s1.country_enabled || decide (e ≠ 0)) ∧
      s.country_position_offset = if e ≠ 0 then (e - 1) * 4 else s1.country_position_offset) ∧
    (∃ e, lookup region_position s1.meta.databasetype = some e ∧
      s.region_enabled = (s1.region_enabled || decide (e ≠ 0)) ∧
      s.region_position_offset = if e ≠ 0 then (e - 1) * 4 else s1.region_position_offset) ∧
    (∃ e, lookup city_position s1.meta.databasetype = some e ∧
      s.city_enabled = (s1.city_enabled || decide (e ≠ 0)) ∧
      s.city_position_offset = if e ≠ 0 then (e - 1) * 4 else s1.city_position_offset) ∧
    (∃ e, lookup isp_position s1.meta.databasetype = some e ∧
      s.isp_enabled = (s1.isp_enabled || decide (e ≠ 0)) ∧
      s.isp_position_offset = if e ≠ 0 then (e - 1) * 4 else s1.isp_position_offset) ∧
    (∃ e, lookup proxytype_position s1.meta.databasetype = some e ∧
      s.proxytype_enabled = (s1.proxytype_enabled || decide (e ≠ 0)) ∧
      s.proxytype_position_offset = if e ≠ 0 then (e - 1) * 4 else s1.proxytype_position_offset) ∧
    (∃ e, lookup domain_position s1.meta.databasetype = some e ∧
      s.domain_enabled = (s1.domain_enabled || decide (e ≠ 0)) ∧
      s.domain_position_offset = if e ≠ 0 then (e - 1) * 4 else s1.domain_position_offset) ∧
    (∃ e, lookup usagetype_position s1.meta.databasetype = some e ∧
      s.usagetype_enabled = (s1.usagetype_enabled || decide (e ≠ 0)) ∧
      s.usagetype_position_offset = if e ≠ 0 then (e - 1) * 4 else s1.usagetype_position_offset) ∧
    (∃ e, lookup asn_position s1.meta.databasetype = some e ∧
      s.asn_enabled = (s1.asn_enabled || decide (e ≠ 0)) ∧
      s.asn_position_offset = if e ≠ 0 then (e - 1) * 4 else s1.asn_position_offset) ∧
    (∃ e, lookup as_position s1.meta.databasetype = some e ∧
      s.as_enabled = (s1.as_enabled || decide (e ≠ 0)) ∧
      s.as_position_offset = if e ≠ 0 then (e - 1) * 4 else s1.as_position_offset) ∧
    (∃ e, lookup lastseen_position s1.meta.databasetype = some e ∧
      s.lastseen_enabled = (s1.lastseen_enabled || decide (e ≠ 0)) ∧
      s.lastseen_position_offset = if e ≠ 0 then (e - 1) * 4 else s1.lastseen_position_offset) := by
  have hd : s1.meta.databasetype ≤ 8 := by
    by_contra hc
    rw [Open_fields_none s1 (by omega)] at h
    exact absurd h (by simp)
  generalize hd' : s1.meta.databasetype = d at hd
  interval_cases d <;>
    simp [Open_fields, Open_country, Open_region, Open_city, Open_isp, Open_proxytype, Open_domain, Open_usagetype, Open_asn, Open_as, Open_lastseen, lookup, hd', country_position, region_position, city_position, isp_position, proxytype_position, domain_position, usagetype_position, asn_position, as_position, lastseen_position, position_offset, u8, u32] at h <;>
    subst h <;>
    simp [lookup, country_position, region_position, city_position, isp_position, proxytype_position, domain_position, usagetype_position, asn_position, as_position, lastseen_position]


theorem Open_ok_fields {prior s : State} {store : Store}
    (h : Open prior (some store) = (s, none)) :
    Open_fields (Open_header prior store) = some s := by
  unfold Open at h
  simp only at h
  cases hf : Open_fields (Open_header prior store) with
  | none => simp [hf] at h
  | some t =>
    simp only [hf, Prod.mk.injEq, and_true] at h
    rw [h]

/-- From a state whose flags are all clear (a fresh process, or after `Close`)
a successful `Open` leaves, for each field, the flag set exactly when the table
entry of the schema type is nonzero, and the offset `(entry - 1) * 4` for every
enabled field. -/
theorem Open_layout_from_clear (prior s : State) (store : Store)
    (hopen : Open prior (some store) = (s, none)) (hclear : flags_clear prior) :
    (∃ e, lookup country_position s.meta.databasetype = some e ∧
      (s.country_enabled = true ↔ e ≠ 0) ∧
      (s.country_enabled = true → s.country_position_offset = (e - 1) * 4)) ∧
    (∃ e, lookup region_position s.meta.databasetype = some e ∧
      (s.region_enabled = true ↔ e ≠ 0) ∧
      (s.region_enabled = true → s.region_position_offset = (e - 1) * 4)) ∧
    (∃ e, lookup city_position s.meta.databasetype = some e ∧
      (s.city_enabled = true ↔ e ≠ 0) ∧
      (s.city_enabled = true → s.city_position_offset = (e - 1) * 4)) ∧
    (∃ e, lookup isp_position s.meta.databasetype = some e ∧
      (s.isp_enabled = true ↔ e ≠ 0) ∧
      (s.isp_enabled = true → s.isp_position_offset = (e - 1) * 4)) ∧
    (∃ e, lookup proxytype_position s.meta.databasetype = some e ∧
      (s.proxytype_enabled = true ↔ e ≠ 0) ∧
      (s.proxytype_enabled = true → s.proxytype_position_offset = (e - 1) * 4)) ∧
    (∃ e, lookup domain_position s.meta.databasetype = some e ∧
      (s.domain_enabled = true ↔ e ≠ 0) ∧
      (s.domain_enabled = true → s.domain_position_offset = (e - 1) * 4)) ∧
    (∃ e, lookup usagetype_position s.meta.databasetype = some e ∧
      (s.usagetype_enabled = true ↔ e ≠ 0) ∧
      (s.usagetype_enabled = true → s.usagetype_position_offset = (e - 1) * 4)) ∧
    (∃ e, lookup asn_position s.meta.databasetype = some e ∧
      (s.asn_enabled = true ↔ e ≠ 0) ∧
      (s.asn_enabled = true → s.asn_position_offset = (e - 1) * 4)) ∧
    (∃ e, lookup as_position s.meta.databasetype = some e ∧
      (s.as_enabled = true ↔ e ≠ 0) ∧
      (s.as_enabled = true → s.as_position_offset = (e - 1) * 4)) ∧
    (∃ e, lookup lastseen_position s.meta.databasetype = some e ∧
      (s.lastseen_enabled = true ↔ e ≠ 0) ∧
      (s.lastseen_enabled = true → s.lastseen_position_offset = (e - 1) * 4)) := by
  have hf := Open_ok_fields hopen
  have hmeta : s.meta = (Open_header prior store).meta := (Open_fields_frame hf).1.2.1
  obtain ⟨⟨e0, a0, b0, c0⟩, ⟨e1, a1, b1, c1⟩, ⟨e2, a2, b2, c2⟩, ⟨e3, a3, b3, c3⟩, ⟨e4, a4, b4, c4⟩, ⟨e5, a5, b5, c5⟩, ⟨e6, a6, b6, c6⟩, ⟨e7, a7, b7, c7⟩, ⟨e8, a8, b8, c8⟩, ⟨e9, a9, b9, c9⟩⟩ :=
    Open_fields_layout _ _ hf
  obtain ⟨k0, k1, k2, k3, k4, k5, k6, k7, k8, k9⟩ := hclear
  refine ⟨?_, ?_, ?_, ?_, ?_, ?_, ?_, ?_, ?_, ?_⟩
  · refine ⟨e0, by rw [hmeta]; exact a0, ?_, ?_⟩
    · rw [b0, show (Open_header prior store).country_enabled = prior.country_enabled from rfl, k0]
      simp
    · intro hen
      rw [b0, show (Open_header prior store).country_enabled = prior.country_enabled from rfl, k0] at hen
      rw [c0, if_pos (by simpa using hen)]
  · refine ⟨e1, by rw [hmeta]; exact a1, ?_, ?_⟩
    · rw [b1, show (Open_header prior store).region_enabled = prior.region_enabled from rfl, k1]
      simp
    · intro hen
      rw [b1, show (Open_header prior store).region_enabled = prior.region_enabled from rfl, k1] at hen
      rw [c1, if_pos (by simpa using hen)]
  · refine ⟨e2, by rw [hmeta]; exact a2, ?_, ?_⟩
    · rw [b2, show (Open_header prior store).city_enabled = prior.city_enabled from rfl, k2]
      simp
    · intro hen
      rw [b2, show (Open_header prior store).city_enabled = prior.city_enabled from rfl, k2] at hen
      rw [c2, if_pos (by simpa using hen)]
  · refine ⟨e3, by rw [hmeta]; exact a3, ?_, ?_⟩
    · rw [b3, show (Open_header prior store).isp_enabled = prior.isp_enabled from rfl, k3]
      simp
    · intro hen
      rw [b3, show (Open_header prior store).isp_enabled = prior.isp_enabled from rfl, k3] at hen
      rw [c3, if_pos (by simpa using hen)]
  · refine ⟨e4, by rw [hmeta]; exact a4, ?_, ?_⟩
    · rw [b4, show (Open_header prior store).proxytype_enabled = prior.proxytype_enabled from rfl, k4]
      simp
    · intro hen
      rw [b4, show (Open_header prior store).proxytype_enabled = prior.proxytype_enabled from rfl, k4] at hen
      rw [c4, if_pos (by simpa using hen)]
  · refine ⟨e5, by rw [hmeta]; exact a5, ?_, ?_⟩
    · rw [b5, show (Open_header prior store).domain_enabled = prior.domain_enabled from rfl, k5]
      simp
    · intro hen
      rw [b5, show (Open_header prior store).domain_enabled = prior.domain_enabled from rfl, k5] at hen
      rw [c5, if_pos (by simpa using hen)]
  · refine ⟨e6, by rw [hmeta]; exact a6, ?_, ?_⟩
    · rw [b6, show (Open_header prior store).usagetype_enabled = prior.usagetype_enabled from rfl, k6]
      simp
    · intro hen
      rw [b6, show (Open_header prior store).usagetype_enabled = prior.usagetype_enabled from rfl, k6] at hen
      rw [c6, if_pos (by simpa using hen)]
  · refine ⟨e7, by rw [hmeta]; exact a7, ?_, ?_⟩
    · rw [b7, show (Open_header prior store).asn_enabled = prior.asn_enabled from rfl, k7]
      simp
    · intro hen
      rw [b7, show (Open_header prior store).asn_enabled = prior.asn_enabled from rfl, k7] at hen
      rw [c7, if_pos (by simpa using hen)]
  · refine ⟨e8, by rw [hmeta]; exact a8, ?_, ?_⟩
    · rw [b8, show (Open_header prior store).as_enabled = prior.as_enabled from rfl, k8]
      simp
    · intro hen
      rw [b8, show (Open_header prior store).as_enabled = prior.as_enabled from rfl, k8] at hen
      rw [c8, if_pos (by simpa using hen)]
  · refine ⟨e9, by rw [hmeta]; exact a9, ?_, ?_⟩
    · rw [b9, show (Open_header prior store).lastseen_enabled = prior.lastseen_enabled from rfl, k9]
      simp
    · intro hen
      rw [b9, show (Open_header prior store).lastseen_enabled = prior.lastseen_enabled from rfl, k9] at hen
      rw [c9, if_pos (by simpa using hen)]

/-- C14 at a failing input: `Open` on `px2_store` (schema type 2) and then,
without `Close`, `Open` on `px1_store` (schema type 1).  The second `Open`
succeeds; the table entry of `proxy_type` for type 1 is 0, yet
`proxytype_enabled` is still true with the offset 4 of the earlier database,
and `query` on `0.0.0.17` returns `Proxy_type = "US"`, read through the
country column, where a fresh `Open` of `px1_store` returns it empty. -/
theorem Open_keeps_stale_flags :
    (Open px2_state (some px1_store)).2 = none ∧
    reopened_state.meta.databasetype = 1 ∧
    lookup proxytype_position 1 = some 0 ∧
    reopened_state.proxytype_enabled = true ∧
    reopened_state.proxytype_position_offset = 4 ∧
    px1_state.proxytype_enabled = false ∧
    query reopened_state (some (IPv4 0 0 0 17)) all 2 =
      some (⟨[85, 83], [85, 83], [], [], [], [85, 83], [], [], [], [], [], 1, 16, 32⟩, none) ∧
    query px1_state (some (IPv4 0 0 0 17)) all 2 =
      some (⟨[85, 83], [85, 83], [], [], [], [], [], [], [], [], [], 1, 16, 32⟩, none) := by
  decide

/-! ## C15: the row sizes -/

/-- For a column count of at most 60 the row sizes that `Open` stores are the
integers `c * 4` and `16 + (c - 1) * 4`. -/
theorem Open_row_sizes_small (prior s : State) (store : Store)
    (hopen : Open prior (some store) = (s, none)) (hc : readuint8 (some store) 2 ≤ 60) :
    s.meta.ipv4columnsize = readuint8 (some store) 2 * 4 ∧
    (s.meta.ipv6columnsize : Int) = 16 + ((readuint8 (some store) 2 : Int) - 1) * 4 := by
  have hm := (Open_ok hopen).1.2.1
  rw [hm]
  simp only [Open_header, u8, Nat.shiftLeft_eq]
  generalize readuint8 (some store) 2 = c at hc
  constructor <;> omega

/-- C15 at a failing input: the header of `wide_store` carries the column
count 64; `Open` succeeds and stores the IPv4 row size 0 (not `64 * 4 = 256`)
and the IPv6 row size 12 (not `16 + 63 * 4 = 268`), because both are computed
in `uint8` before the conversion to `uint32`. -/
theorem Open_row_sizes_wrap :
    readuint8 (some wide_store) 2 = 64 ∧
    (Open initState (some wide_store)).2 = none ∧
    (Open initState (some wide_store)).1.meta.databasecolumn = 64 ∧
    (Open initState (some wide_store)).1.meta.ipv4columnsize = 0 ∧
    (Open initState (some wide_store)).1.meta.ipv6columnsize = 12 := by
  decide


/-! ## C19: the result of `checkip` is well typed -/

theorem SetBytes_bounds (data : List Byte) :
    0 ≤ SetBytes data ∧ SetBytes data < 256 ^ data.length := by
  have h := foldl_bytes_lt data 0
  unfold SetBytes
  constructor
  · exact Int.ofNat_nonneg _
  · simp only [Int.ofNat_eq_coe]
    have h' : data.foldl (fun acc (b : Byte) => acc * 256 + b.val) 0 < 256 ^ data.length := by
      simpa using h
    exact_mod_cast h'

theorem To4_length (ip v4 : NetIP) (h : To4 ip = some v4) : v4.length = 4 := by
  unfold To4 at h
  split at h
  · rename_i h4
    rw [← Option.some.inj h]; exact h4
  · split at h
    · rename_i h16
      rw [← Option.some.inj h, List.length_drop, h16.1]
    · exact absurd h (by simp)

theorem To16_length (ip v6 : NetIP) (h : To16 ip = some v6) : v6.length = 16 := by
  unfold To16 at h
  split at h
  · rw [← Option.some.inj h]; rfl
  · split at h
    · rename_i h16
      rw [← Option.some.inj h]; exact h16
    · exact absurd h (by simp)

theorem And_last_32bits_bounds (x : Int) (hx : 0 ≤ x) :
    0 ≤ And x last_32bits ∧ And x last_32bits < 4294967296 := by
  obtain ⟨n, rfl⟩ := Int.eq_ofNat_of_zero_le hx
  have h := And_ofNat_last_32bits n
  rw [show ((n : Nat) : Int) = Int.ofNat n from rfl, h]
  simp only [Int.ofNat_eq_coe]
  omega

theorem And_Not_last_32bits_bounds (x : Int) (hx : 0 ≤ x) :
    0 ≤ And (Not x) last_32bits ∧ And (Not x) last_32bits < 4294967296 := by
  obtain ⟨n, rfl⟩ := Int.eq_ofNat_of_zero_le hx
  have h := And_Not_ofNat n
  rw [show ((n : Nat) : Int) = Int.ofNat n from rfl, h]
  simp only [Int.ofNat_eq_coe]
  omega

theorem Rsh_nonneg (x : Int) (k : Nat) (hx : 0 ≤ x) : 0 ≤ Rsh x k := by
  obtain ⟨n, rfl⟩ := Int.eq_ofNat_of_zero_le hx
  rw [show ((n : Nat) : Int) = Int.ofNat n from rfl, Rsh_ofNat]
  exact Int.ofNat_nonneg _

/-- The result of `checkip_num` in any state: family 0, or family 4 with a
32-bit value, or family 6 with a 128-bit value outside the three ranges the
state holds. -/
theorem checkip_num_cases (s : State) (ip : Option NetIP) :
    ((checkip_num s ip).1 = 0 ∧ (checkip_num s ip).2 = 0) ∨
    ((checkip_num s ip).1 = 4 ∧ 0 ≤ (checkip_num s ip).2 ∧
      (checkip_num s ip).2 < 4294967296) ∨
    ((checkip_num s ip).1 = 6 ∧ 0 ≤ (checkip_num s ip).2 ∧
      (checkip_num s ip).2 < 340282366920938463463374607431768211456 ∧
      ¬ (from_v4mapped ≤ (checkip_num s ip).2 ∧ (checkip_num s ip).2 ≤ to_v4mapped) ∧
      ¬ (s.from_6to4 ≤ (checkip_num s ip).2 ∧ (checkip_num s ip).2 ≤ s.to_6to4) ∧
      ¬ (s.from_teredo ≤ (checkip_num s ip).2 ∧ (checkip_num s ip).2 ≤ s.to_teredo)) := by
  cases ip with
  | none => left; exact ⟨rfl, rfl⟩
  | some ip =>
    unfold checkip_num
    simp only
    cases h4 : To4 ip with
    | some v4 =>
      right; left
      have hb := SetBytes_bounds v4
      rw [To4_length ip v4 h4] at hb
      simp only
      exact ⟨trivial, hb.1, by have := hb.2; norm_num at this; exact this⟩
    | none =>
      simp only
      cases h16 : To16 ip with
      | none => left; exact ⟨rfl, rfl⟩
      | some v6 =>
        have hb := SetBytes_bounds v6
        rw [To16_length ip v6 h16] at hb
        have hb2 : SetBytes v6 < 340282366920938463463374607431768211456 := by
          have := hb.2; norm_num at this; exact this
        simp only
        split
        · rename_i hm
          right; left
          simp only [from_v4mapped, to_v4mapped] at hm ⊢
          exact ⟨trivial, by omega, by omega⟩
        · rename_i hm
          split
          · right; left
            have := And_last_32bits_bounds _ (Rsh_nonneg _ 80 hb.1)
            exact ⟨rfl, this.1, this.2⟩
          · rename_i h6
            split
            · right; left
              have := And_Not_last_32bits_bounds _ hb.1
              exact ⟨rfl, this.1, this.2⟩
            · rename_i ht
              right; right
              exact ⟨rfl, hb.1, hb2, hm, h6, ht⟩


theorem remap_source_order (s : State) (ip v6 : NetIP) (h4 : To4 ip = none)
    (h16 : To16 ip = some v6) :
    checkip_num s (some ip) = remap_in_order s [0, 1, 2] (SetBytes v6) := by
  simp only [checkip_num, h4, h16, remap_in_order, remap_rule, List.findSome?]
  split_ifs <;> simp_all

theorem remap_order_irrelevant (s : State)
    (r1 : s.from_6to4 = 42545680458834377588178886921629466624)
    (r2 : s.to_6to4 = 42550872755692912415807417417958686719)
    (r3 : s.from_teredo = 42540488161975842760550356425300246528)
    (r4 : s.to_teredo = 42540488241204005274814694018844196863)
    (x : Int) (order : List Nat) (ho : order ∈ test_orders) :
    remap_in_order s order x = remap_in_order s [0, 1, 2] x := by
  simp only [test_orders, List.mem_cons, List.mem_singleton, List.not_mem_nil, or_false] at ho
  rcases ho with rfl | rfl | rfl | rfl | rfl | rfl <;>
    simp only [remap_in_order, remap_rule, List.findSome?, r1, r2, r3, r4, from_v4mapped,
      to_v4mapped] <;>
    split_ifs <;> first | rfl | omega


theorem checkip_num_type_ne_zero (s : State) (ip : NetIP)
    (hlen : ip.length = 4 ∨ ip.length = 16) : (checkip_num s (some ip)).1 ≠ 0 := by
  unfold checkip_num
  simp only
  cases h4 : To4 ip with
  | some v4 => simp
  | none =>
    have h16 : To16 ip = some ip := by
      rcases hlen with h | h
      · simp [To4, h] at h4
      · simp [To16, h]
    simp only [h16]
    split_ifs <;> simp

/-- C19: in every state left by a call of `Open`, for every parsed address of
4 or 16 octets, `checkip` returns family 4 or 6; with family 4 the value lies
in `[0, 2^32)` on every path; with family 6 the value lies in `[0, 2^128)` and
in none of the IPv4-mapped, 6to4 and Teredo ranges.  The three ranges are
pairwise disjoint, `checkip` classifies a 16-octet address that is not in
IPv4 form as the three tests in source order do, and the tests made in any of
the six orders give the same result. -/
theorem checkip_well_typed (prior : State) (file : Option Store) (ip : NetIP)
    (hlen : ip.length = 4 ∨ ip.length = 16) :
    ((checkip (Open prior file).1 (some ip)).1 = 4 ∨
      (checkip (Open prior file).1 (some ip)).1 = 6) ∧
    ((checkip (Open prior file).1 (some ip)).1 = 4 →
      0 ≤ (checkip (Open prior file).1 (some ip)).2.1 ∧
      (checkip (Open prior file).1 (some ip)).2.1 < 4294967296) ∧
    ((checkip (Open prior file).1 (some ip)).1 = 6 →
      0 ≤ (checkip (Open prior file).1 (some ip)).2.1 ∧
      (checkip (Open prior file).1 (some ip)).2.1 <
        340282366920938463463374607431768211456 ∧
      ¬ (281470681743360 ≤ (checkip (Open prior file).1 (some ip)).2.1 ∧
        (checkip (Open prior file).1 (some ip)).2.1 ≤ 281474976710655) ∧
      ¬ (42545680458834377588178886921629466624 ≤
          (checkip (Open prior file).1 (some ip)).2.1 ∧
        (checkip (Open prior file).1 (some ip)).2.1 ≤
          42550872755692912415807417417958686719) ∧
      ¬ (42540488161975842760550356425300246528 ≤
          (checkip (Open prior file).1 (some ip)).2.1 ∧
        (checkip (Open prior file).1 (some ip)).2.1 ≤
          42540488241204005274814694018844196863)) ∧
    (∀ x : Int,
      ¬ ((from_v4mapped ≤ x ∧ x ≤ to_v4mapped) ∧
        ((Open prior file).1.from_6to4 ≤ x ∧ x ≤ (Open prior file).1.to_6to4)) ∧
      ¬ ((from_v4mapped ≤ x ∧ x ≤ to_v4mapped) ∧
        ((Open prior file).1.from_teredo ≤ x ∧ x ≤ (Open prior file).1.to_teredo)) ∧
      ¬ (((Open prior file).1.from_6to4 ≤ x ∧ x ≤ (Open prior file).1.to_6to4) ∧
        ((Open prior file).1.from_teredo ≤ x ∧ x ≤ (Open prior file).1.to_teredo))) ∧
    (To4 ip = none →
      checkip_num (Open prior file).1 (some ip) =
        remap_in_order (Open prior file).1 [0, 1, 2] (SetBytes ip)) ∧
    (∀ (x : Int) (order : List Nat), order ∈ test_orders →
      remap_in_order (Open prior file).1 order x =
        remap_in_order (Open prior file).1 [0, 1, 2] x) := by
  obtain ⟨r1, r2, r3, r4⟩ := Open_ranges prior file
  have hne := checkip_num_type_ne_zero (Open prior file).1 ip hlen
  have hc := checkip_num_cases (Open prior file).1 (some ip)
  rw [r1, r2, r3, r4] at hc
  simp only [from_v4mapped, to_v4mapped] at hc
  have e1 : (checkip (Open prior file).1 (some ip)).1 =
      (checkip_num (Open prior file).1 (some ip)).1 := rfl
  have e2 : (checkip (Open prior file).1 (some ip)).2.1 =
      (checkip_num (Open prior file).1 (some ip)).2 := rfl
  rw [e1, e2]
  refine ⟨?_, ?_, ?_, ?_, ?_, ?_⟩
  · rcases hc with h | h | h
    · exact absurd h.1 hne
    · exact Or.inl h.1
    · exact Or.inr h.1
  · intro h4
    rcases hc with h | h | h
    · exact absurd h.1 hne
    · exact h.2
    · rw [h.1] at h4; exact absurd h4 (by decide)
  · intro h6
    rcases hc with h | h | h
    · exact absurd h.1 hne
    · rw [h.1] at h6; exact absurd h6 (by decide)
    · exact h.2
  · intro x
    rw [r1, r2, r3, r4]
    simp only [from_v4mapped, to_v4mapped]
    refine ⟨?_, ?_, ?_⟩ <;> omega
  · intro h4
    have h16 : To16 ip = some ip := by
      rcases hlen with h | h
      · simp [To4, h] at h4
      · simp [To16, h]
    exact remap_source_order _ ip ip h4 h16
  · intro x order ho
    exact remap_order_irrelevant _ r1 r2 r3 r4 x order ho

theorem checkip_well_typed_witness :
    (checkip px2_state (some addr_v6_example)).1 = 4 ∨
      (checkip px2_state (some addr_v6_example)).1 = 6 :=
  (checkip_well_typed initState (some px2_store) addr_v6_example (by decide)).1


/-! ## C16: the value searched for -/

/-- C16: on an opened database, for every address that normalizes to family 4
or 6 with value `v`, the value `query` searches for is `v - 1` when `v` is the
maximum of the family (`0xFFFFFFFF`, `2^128 - 1`) and `v` otherwise; so an
address of family 4 with value `0xFFFFFFFF` is searched as `0xFFFFFFFE`; and
the index key, computed from `v` before the decrement, is the key of the
decremented value. -/
theorem searched_value (prior s : State) (store : Store)
    (hopen : Open prior (some store) = (s, none)) (ip : Option NetIP)
    (ht : norm_type s ip = 4 ∨ norm_type s ip = 6) (mode fuel : Nat) :
    fam_maxip s 4 = 4294967295 ∧
    fam_maxip s 6 = 340282366920938463463374607431768211455 ∧
    searched (fam_maxip s (norm_type s ip)) (norm_value s ip) =
      (if norm_value s ip = fam_maxip s (norm_type s ip) then norm_value s ip - 1
        else norm_value s ip) ∧
    (¬ (norm_type s ip ≠ 4 ∧ s.meta.ipv6databasecount = 0) →
      query s ip mode fuel =
        search s (norm_type s ip)
          (if norm_value s ip = fam_maxip s (norm_type s ip) then norm_value s ip - 1
            else norm_value s ip)
          (fam_base s (norm_type s ip)) (fam_colsize s (norm_type s ip)) mode fuel
          (start_low s (norm_key s ip))
          (start_high s (norm_key s ip) (fam_count s (norm_type s ip)))) ∧
    (norm_type s ip = 4 → norm_value s ip = 4294967295 →
      searched (fam_maxip s (norm_type s ip)) (norm_value s ip) = 4294967294) ∧
    (norm_value s ip = fam_maxip s (norm_type s ip) →
      checkip_index s (norm_type s ip) (norm_value s ip - 1) = norm_key s ip) := by
  have hmax6 : s.max_ipv6_range = 340282366920938463463374607431768211455 :=
    (Open_ok_ranges hopen).1
  have m4 : fam_maxip s 4 = 4294967295 := rfl
  have m6 : fam_maxip s 6 = 340282366920938463463374607431768211455 := hmax6
  have hc := checkip_num_cases s ip
  have e1 : (checkip_num s ip).1 = norm_type s ip := rfl
  have e2 : (checkip_num s ip).2 = norm_value s ip := rfl
  rw [e1, e2] at hc
  have hle : norm_value s ip ≤ fam_maxip s (norm_type s ip) := by
    rcases hc with h | h | h
    · rcases ht with h' | h' <;> omega
    · rw [h.1, m4]; omega
    · rw [h.1, m6]; omega
  have hs : searched (fam_maxip s (norm_type s ip)) (norm_value s ip) =
      (if norm_value s ip = fam_maxip s (norm_type s ip) then norm_value s ip - 1
        else norm_value s ip) := by
    unfold searched
    split <;> split <;> omega
  refine ⟨m4, m6, hs, ?_, ?_, ?_⟩
  · intro h6
    rw [← hs]
    exact query_eq_search s (Open_ok_metaok hopen) ip mode fuel
      (by rw [e1]; rcases ht with h | h <;> omega) h6
  · intro h4 hv
    rw [hs, h4, m4, hv]
    decide
  · intro hv
    show _ = checkip_index s (norm_type s ip) (norm_value s ip)
    rcases ht with h | h
    · rw [h, m4] at hv
      rw [h, hv]
      unfold checkip_index
      have : Rsh (4294967295 - 1) 16 = Rsh 4294967295 16 := by decide
      rw [if_pos rfl, if_pos rfl, this]
    · rw [h, m6] at hv
      rw [h, hv]
      unfold checkip_index
      have : Rsh (340282366920938463463374607431768211455 - 1) 112 =
          Rsh 340282366920938463463374607431768211455 112 := by decide
      have h64 : ¬ ((6 : Nat) = 4) := by decide
      simp only [h64, if_false, if_true, this]

theorem searched_value_witness :
    searched (fam_maxip px2_state (norm_type px2_state (some (IPv4 255 255 255 255))))
      (norm_value px2_state (some (IPv4 255 255 255 255))) = 4294967294 :=
  (searched_value initState px2_state px2_store (by decide) (some (IPv4 255 255 255 255))
    (by decide) all 4).2.2.2.2.1 (by decide) (by decide)


/-! ## C17: the index key -/

theorem key_formula (x : Int) (hx : 0 ≤ x) (k base : Nat) :
    ((u32 (Uint64 (Lsh (Rsh x k) 3 + (base : Int))) : Nat) : Int) =
      ((x / 2 ^ k) * 8 + (base : Int)) % 4294967296 := by
  obtain ⟨n, rfl⟩ := Int.eq_ofNat_of_zero_le hx
  rw [show ((n : Nat) : Int) = Int.ofNat n from rfl, Rsh_ofNat]
  have hq : (Int.ofNat n) / 2 ^ k = Int.ofNat (n / 2 ^ k) := by
    simp only [Int.ofNat_eq_coe]
    norm_cast
  rw [hq]
  generalize n / 2 ^ k = q
  unfold Lsh Uint64 u32
  simp only [Int.ofNat_eq_coe]
  have hsum : ((q : Int) * 2 ^ 3 + (base : Int)).natAbs = q * 8 + base := by
    have : ((q : Int) * 2 ^ 3 + (base : Int)) = ((q * 8 + base : Nat) : Int) := by
      push_cast; ring
    rw [this, Int.natAbs_ofNat]
  rw [hsum]
  omega

theorem readuint32_stored (f : Option Store) (pos : Nat) (h : 0 < pos) :
    readuint32 f pos = littleEndian (stored f pos 4) := by
  unfold readuint32 ReadAt stored
  rw [if_neg (by omega)]
  have : ((pos : Int) - 1).toNat = pos - 1 := by omega
  rw [this]


/-- C17 (amended): in every state, for every address that normalizes to family
4 or 6 with value `v`: when the index base address of the family is nonzero the
index key is `((v >> 16) << 3) + ipv4_index_base` reduced modulo `2^32` for
family 4 and `((v >> 112) << 3) + ipv6_index_base` reduced modulo `2^32` for
family 6; when the index base is zero the key is 0.  `query` (once past its
guards) starts the search from the two little-endian 32-bit values stored at
positions `key` and `(key + 4) mod 2^32` when the key is nonzero, and from
`low = 0`, `high = record_count` when the key is 0. -/
theorem index_key (s : State) (ip : Option NetIP)
    (ht : norm_type s ip = 4 ∨ norm_type s ip = 6) (mode fuel : Nat) :
    (norm_type s ip = 4 → s.meta.ipv4indexbaseaddr ≠ 0 →
      ((norm_key s ip : Nat) : Int) =
        ((norm_value s ip / 65536) * 8 + (s.meta.ipv4indexbaseaddr : Int)) % 4294967296) ∧
    (norm_type s ip = 6 → s.meta.ipv6indexbaseaddr ≠ 0 →
      ((norm_key s ip : Nat) : Int) =
        ((norm_value s ip / 5192296858534827628530496329220096) * 8 +
          (s.meta.ipv6indexbaseaddr : Int)) % 4294967296) ∧
    (norm_type s ip = 4 → s.meta.ipv4indexbaseaddr = 0 → norm_key s ip = 0) ∧
    (norm_type s ip = 6 → s.meta.ipv6indexbaseaddr = 0 → norm_key s ip = 0) ∧
    (s.metaok = true → ¬ (norm_type s ip ≠ 4 ∧ s.meta.ipv6databasecount = 0) →
      query s ip mode fuel =
        search s (norm_type s ip)
          (searched (fam_maxip s (norm_type s ip)) (norm_value s ip))
          (fam_base s (norm_type s ip)) (fam_colsize s (norm_type s ip)) mode fuel
          (if 0 < norm_key s ip then readuint32 s.f (norm_key s ip) else 0)
          (if 0 < norm_key s ip then readuint32 s.f (u32 (norm_key s ip + 4))
            else fam_count s (norm_type s ip))) ∧
    (0 < norm_key s ip →
      readuint32 s.f (norm_key s ip) = littleEndian (stored s.f (norm_key s ip) 4)) ∧
    (0 < u32 (norm_key s ip + 4) →
      readuint32 s.f (u32 (norm_key s ip + 4)) =
        littleEndian (stored s.f (u32 (norm_key s ip + 4)) 4)) := by
  have hc := checkip_num_cases s ip
  have e1 : (checkip_num s ip).1 = norm_type s ip := rfl
  have e2 : (checkip_num s ip).2 = norm_value s ip := rfl
  rw [e1, e2] at hc
  have hv : 0 ≤ norm_value s ip := by
    rcases hc with h | h | h
    · rcases ht with h' | h' <;> omega
    · exact h.2.1
    · exact h.2.1
  have hk : norm_key s ip = checkip_index s (norm_type s ip) (norm_value s ip) := rfl
  refine ⟨?_, ?_, ?_, ?_, ?_, ?_, ?_⟩
  · intro h4 hb
    rw [hk, h4]
    unfold checkip_index
    rw [if_pos rfl, if_pos (Nat.pos_of_ne_zero hb), key_formula _ hv]
    norm_num
  · intro h6 hb
    rw [hk, h6]
    unfold checkip_index
    rw [if_neg (by decide), if_pos rfl, if_pos (Nat.pos_of_ne_zero hb), key_formula _ hv]
    norm_num
  · intro h4 hb
    rw [hk, h4]
    unfold checkip_index
    rw [if_pos rfl, if_neg (by omega)]
  · intro h6 hb
    rw [hk, h6]
    unfold checkip_index
    rw [if_neg (by decide), if_pos rfl, if_neg (by omega)]
  · intro hm h6
    exact query_eq_search s hm ip mode fuel (by rw [e1]; rcases ht with h | h <;> omega) h6
  · intro h
    exact readuint32_stored _ _ h
  · intro h
    exact readuint32_stored _ _ h

theorem index_key_witness :
    ((norm_key (indexed_state 0 2) (some (IPv4 0 0 0 50)) : Nat) : Int) =
      ((norm_value (indexed_state 0 2) (some (IPv4 0 0 0 50)) / 65536) * 8 +
        ((indexed_state 0 2).meta.ipv4indexbaseaddr : Int)) % 4294967296 :=
  (index_key (indexed_state 0 2) (some (IPv4 0 0 0 50)) (by decide) all 3).1
    (by decide) (by decide)

/-- C17 fails as stated when the sum leaves the `uint32` range: the database
`wrap_index_store` opens with the IPv4 index base address `0xFFFFFFF8`, the
address `0.1.0.0` has value 65536, so `((value >> 16) << 3) + base` is
`4294967296`; the key that `checkip` returns is 0, and `query` does not read
an index entry but searches from `low = 0`, `high = record_count = 1`. -/
theorem index_key_wrap_counterexample :
    (Open initState (some wrap_index_store)).2 = none ∧
    wrap_index_state.meta.ipv4indexbaseaddr = 4294967288 ∧
    norm_type wrap_index_state (some (IPv4 0 1 0 0)) = 4 ∧
    norm_value wrap_index_state (some (IPv4 0 1 0 0)) = 65536 ∧
    (65536 / 65536 : Int) * 8 + 4294967288 = 4294967296 ∧
    norm_key wrap_index_state (some (IPv4 0 1 0 0)) = 0 ∧
    start_low wrap_index_state (norm_key wrap_index_state (some (IPv4 0 1 0 0))) = 0 ∧
    start_high wrap_index_state (norm_key wrap_index_state (some (IPv4 0 1 0 0)))
      wrap_index_state.meta.ipv4databasecount = 1 := by
  decide


/-! ## C18: the boundary values of a row -/

theorem foldr_bytes_eq (data : List Byte) :
    data.foldr (fun b acc => acc * 256 + b.val) 0 = littleEndian data := by
  induction data with
  | nil => rfl
  | cons b t ih =>
    simp only [List.foldr_cons, littleEndian] at ih ⊢
    rw [ih]
    omega

theorem SetBytes_reverse (data : List Byte) :
    SetBytes data.reverse = Int.ofNat (littleEndian data) := by
  unfold SetBytes
  rw [List.foldl_reverse, foldr_bytes_eq]

theorem readuint128_stored (f : Option Store) (pos : Nat) (h : 0 < pos) :
    readuint128 f pos = Int.ofNat (littleEndian (stored f pos 16)) := by
  unfold readuint128
  rw [SetBytes_reverse]
  unfold ReadAt stored
  rw [if_neg (by omega)]
  have : ((pos : Int) - 1).toNat = pos - 1 := by omega
  rw [this]

/-- C18 (amended): for every store content and every row position `p >= 1`,
the value the search reads for an IPv6 row (`readuint128`) is the little-endian
magnitude of the 16 bytes stored from 0-based offset `p - 1` on, and the value
it reads for an IPv4 row (`readuint32`) is the little-endian integer of the 4
bytes stored from offset `p - 1` on, widened without change; bytes past the
end of the file count as zero. -/
theorem row_values (s : State) (p : Nat) (hp : 0 < p) :
    readrow s 6 p = Int.ofNat (littleEndian (stored s.f p 16)) ∧
    readrow s 4 p = Int.ofNat (littleEndian (stored s.f p 4)) ∧
    readrow s 4 p = Int.ofNat (readuint32 s.f p) ∧
    readuint32 s.f p =
      (byteAt s.f (p - 1)).val + 256 * (byteAt s.f p).val +
        65536 * (byteAt s.f (p + 1)).val + 16777216 * (byteAt s.f (p + 2)).val ∧
    (∀ n k, k < n → (stored s.f p n).getD k 0 = byteAt s.f (p - 1 + k)) := by
  have h32 := readuint32_stored s.f p hp
  refine ⟨?_, ?_, rfl, ?_, ?_⟩
  · show readuint128 s.f p = _
    exact readuint128_stored s.f p hp
  · show Int.ofNat (readuint32 s.f p) = _
    rw [h32]
  · rw [h32]
    have e1 : p - 1 + 1 = p := by omega
    have e2 : p - 1 + 2 = p + 1 := by omega
    have e3 : p - 1 + 3 = p + 2 := by omega
    simp only [stored, littleEndian, List.range, List.range.loop, List.map_cons, List.map_nil,
      List.foldr_cons, List.foldr_nil, Nat.add_zero, e1, e2, e3]
    omega
  · intro n k hk
    simp [stored, List.getD_eq_getElem?_getD, hk]

theorem row_values_witness :
    readrow px2_state 4 42 = Int.ofNat (littleEndian (stored px2_state.f 42 4)) :=
  (row_values px2_state 42 (by decide)).2.1

/-- C18 fails as stated for IPv6 rows: on the store whose 16 bytes are
`1, 0, ..., 0` the value read at position 1 is 1, the little-endian reading,
while the big-endian magnitude of the 16 stored bytes is `2^120`. -/
theorem big_endian_counterexample :
    (Open initState (some one_first_store)).2 = none ∧
    stored (Open initState (some one_first_store)).1.f 1 16 = one_first_store ∧
    readrow (Open initState (some one_first_store)).1 6 1 = 1 ∧
    SetBytes (stored (Open initState (some one_first_store)).1.f 1 16) =
      1329227995784915872903807060280344576 := by
  decide


/-! ## The classification without its inputs -/

theorem classify_no_proxy_type (x : IP2Proxyrecord) (hp : x.Proxy_type = [])
    (hc : x.Country_short ≠ str_dash) : classify x = 1 := by
  unfold classify
  rw [hp, if_neg (by rintro (h | h); exact hc h; exact absurd h (by decide)),
    if_neg (by decide)]

/-- The classification when its inputs are not decoded, in terms of the
enabled flags the descriptor holds: for every record that `query` returns with
a nil error, when the mask has none of the `is_proxy`, `proxy_type` and
`country_short` bits (a mask of only `region`, for example), `Is_proxy` is 1;
and when the flag `proxytype_enabled` is false and the decoded `Country_short`
is not "-", `Is_proxy` is 1. -/
theorem classification_default (s : State) (ip : Option NetIP) (mode fuel : Nat)
    (r : IP2Proxyrecord) (h : query s ip mode fuel = some (r, none)) :
    (mode &&& isproxy = 0 → mode &&& proxytype = 0 → mode &&& countryshort = 0 →
      r.Is_proxy = 1) ∧
    (mode = region → r.Is_proxy = 1) ∧
    (s.proxytype_enabled = false → r.Country_short ≠ str_dash → r.Is_proxy = 1) := by
  rcases query_result_cases s ip mode fuel _ h with ⟨-, hne⟩ | ⟨k, -, -, hr⟩
  · exact absurd rfl hne
  · have hr1 := congrArg Prod.fst hr
    simp only at hr1
    obtain ⟨h0, -, -, -, -, h5, h6, -, -, -, -, -⟩ := mask_bits mode
    have hP := decode_strings_Proxy_type s (norm_type s ip) mode
      (rowpos (fam_base s (norm_type s ip)) (fam_colsize s (norm_type s ip)) k)
    have hC := decode_strings_Country_short s (norm_type s ip) mode
      (rowpos (fam_base s (norm_type s ip)) (fam_colsize s (norm_type s ip)) k)
    have hI : r.Is_proxy = classify (decode_strings s (norm_type s ip) mode
        (rowpos (fam_base s (norm_type s ip)) (fam_colsize s (norm_type s ip)) k)) := by
      rw [hr1]; rfl
    have hCS : r.Country_short = (decode_strings s (norm_type s ip) mode
        (rowpos (fam_base s (norm_type s ip)) (fam_colsize s (norm_type s ip)) k)).Country_short := by
      rw [hr1]; rfl
    have hmask : mode &&& isproxy = 0 → mode &&& proxytype = 0 → mode &&& countryshort = 0 →
        r.Is_proxy = 1 := by
      intro m6 m5 m0
      have b0 : mode.testBit 0 = false := by
        by_contra hb
        exact (h0.mpr (by simpa using hb)) m0
      have b5 : mode.testBit 5 = false := by
        by_contra hb
        exact (h5.mpr (by simpa using hb)) m5
      have b6 : mode.testBit 6 = false := by
        by_contra hb
        exact (h6.mpr (by simpa using hb)) m6
      rw [hI]
      apply classify_no_proxy_type
      · rw [hP]; simp [expected_strings, b5, b6]
      · rw [hC]; simp [expected_strings, b0, b6]; decide
    refine ⟨hmask, ?_, ?_⟩
    · intro hm
      subst hm
      exact hmask (by decide) (by decide) (by decide)
    · intro hen hcs
      rw [hI]
      apply classify_no_proxy_type
      · rw [hP]; simp [expected_strings, hen]
      · rw [← hCS]; exact hcs

theorem classification_default_witness :
    (row_record4 px2_state region 0).Is_proxy = 1 :=
  (classification_default px2_state (some (IPv4 0 1 2 3)) region 4
    (row_record4 px2_state region 0) (by decide)).2.1 rfl


/-! ## C10 and C20 after a re-open: fields of another schema type -/

/-- C10 at a failing input: `Open` on `px2_store` (schema type 2) and then,
without `Close`, `Open` on `px1_store` (schema type 1).  `proxy_type` is not
enabled for schema type 1 (its table entry is 0), yet `query` on `0.0.0.17`
with the mask `proxy_type` returns `Proxy_type = "US"`, decoded through the
pointer of the country column, because `Open` left `proxytype_enabled` set; a
fresh `Open` of `px1_store` returns `Proxy_type` empty. -/
theorem query_decodes_disabled_field :
    (Open px2_state (some px1_store)).2 = none ∧
    reopened_state.meta.databasetype = 1 ∧
    lookup proxytype_position 1 = some 0 ∧
    query reopened_state (some (IPv4 0 0 0 17)) proxytype 2 =
      some (⟨[], [], [], [], [], [85, 83], [], [], [], [], [], 1, 16, 32⟩, none) ∧
    query px1_state (some (IPv4 0 0 0 17)) proxytype 2 =
      some (⟨[], [], [], [], [], [], [], [], [], [], [], 1, 16, 32⟩, none) := by
  decide

/-- C20 at a failing input: `Open` on `px2_store` (schema type 2) and then,
without `Close`, `Open` on `px1_dash_store` (schema type 1, `proxy_type`
disabled: its table entry is 0).  `query` on `0.0.0.17` with the mask
`proxy_type` returns `Country_short` empty (not "-"), `Proxy_type = "-"` read
through the country column, and `Is_proxy = 0`, not 1; a fresh `Open` of the
same store returns `Is_proxy = 1`.  Likewise on `px1_dch_store` with the mask
`country_short | proxy_type`: the decoded `Country_short` is "DCH", and
`Is_proxy` is 2 after the re-open and 1 after a fresh `Open`. -/
theorem stale_proxy_type_classification :
    (Open px2_state (some px1_dash_store)).2 = none ∧
    stale_dash_state.meta.databasetype = 1 ∧
    lookup proxytype_position 1 = some 0 ∧
    query stale_dash_state (some (IPv4 0 0 0 17)) proxytype 2 =
      some (⟨[], [], [], [], [], [45], [], [], [], [], [], 0, 16, 32⟩, none) ∧
    query (Open initState (some px1_dash_store)).1 (some (IPv4 0 0 0 17)) proxytype 2 =
      some (⟨[], [], [], [], [], [], [], [], [], [], [], 1, 16, 32⟩, none) ∧
    (Open px2_state (some px1_dch_store)).2 = none ∧
    stale_dch_state.meta.databasetype = 1 ∧
    query stale_dch_state (some (IPv4 0 0 0 17)) (countryshort ||| proxytype) 2 =
      some (⟨[68, 67, 72], [], [], [], [], [68, 67, 72], [], [], [], [], [], 2, 16, 32⟩, none) ∧
    query (Open initState (some px1_dch_store)).1 (some (IPv4 0 0 0 17))
        (countryshort ||| proxytype) 2 =
      some (⟨[68, 67, 72], [], [], [], [], [], [], [], [], [], [], 1, 16, 32⟩, none) := by
  decide

end IP2Proxy
